import Mathlib

/-!
Verification of the task-deployment pipeline of `main.py` (FastAPI service):
a shallow embedding of the Evaluation Reporter (`post_evaluation_with_backoff`),
the background Orchestrator (`process_task_background`), the acceptance
endpoint (`handle_task`), the GitHub repository client (`create_or_get_repo`,
`enable_pages`, `put_file`) and the content generator
(`UniversalTaskGenerator`), together with proofs of the specified properties.

Conventions of the embedding:
* Machine-level HTTP is abstracted to the data the Python code inspects:
  status codes are `Nat`, response bodies are records holding the fields read.
* A Python function that may raise is embedded as a function into
  `PyResult α` (`ok` or `exc` with the exception's string description).
* Side effects (outbound HTTP calls, background scheduling) are made explicit
  as a trace of `Effect` values returned alongside the result.
* `time.strftime (...)` is embedded as an explicit `now : String` argument.
* Python `str` is embedded as Lean `String`; byte content (`.encode("utf-8")`)
  is kept as the underlying string, since UTF-8 encoding is injective and no
  claim inspects raw bytes.
-/

namespace TdsProject

/-- Result of a Python call that may raise: `ok` or an exception carrying
`str(e)`. -/
inductive PyResult (α : Type) where
  | ok (a : α)
  | exc (msg : String)
deriving DecidableEq, Repr

namespace PyResult

def isOk {α : Type} : PyResult α → Bool
  | .ok _ => true
  | .exc _ => false

end PyResult

/-! ## Python string primitives used by `main.py` -/

/-- Python `\w` (ASCII range): letters, digits and underscore.  The briefs in
all claims are ASCII, so the Unicode extension of `\w` is not modelled. -/
def isWordChar (c : Char) : Bool :=
  c.isAlpha || c.isDigit || c = '_'

/-- Python `\s` (ASCII range): space, tab, newline, carriage return. -/
def isPySpace (c : Char) : Bool :=
  c = ' ' || c = '\t' || c = '\n' || c = '\r'

/-- Python `str.lower` on a character (ASCII). -/
def pyLowerChar (c : Char) : Char := c.toLower

/-- Python `str.lower` (ASCII), character by character. -/
def pyLower (s : String) : String := ⟨s.toList.map Char.toLower⟩

/-- Python `str.replace(old, new)` on character lists: replaces non-empty,
non-overlapping occurrences left to right (`old` is never empty in
`main.py`'s uses).  Fuel is one unit per character position. -/
def pyReplaceAux (old new : List Char) : Nat → List Char → List Char
  | 0, cs => cs
  | fuel + 1, cs =>
      if old.isPrefixOf cs && !old.isEmpty then
        new ++ pyReplaceAux old new fuel (cs.drop old.length)
      else
        match cs with
        | [] => []
        | c :: rest => c :: pyReplaceAux old new fuel rest

/-- Python `s.replace(old, new)`. -/
def pyReplace (s old new : String) : String :=
  ⟨pyReplaceAux old.toList new.toList (s.toList.length + 1) s.toList⟩

/-- Python `str.title()`: an alphabetic character is uppercased when the
previous character is not alphabetic, lowercased otherwise. -/
def pyTitleAux : Bool → List Char → List Char
  | _, [] => []
  | prevAlpha, c :: cs =>
      (if c.isAlpha then (if prevAlpha then c.toLower else c.toUpper) else c)
        :: pyTitleAux c.isAlpha cs

/-- Python `str.title()`. -/
def pyTitle (s : String) : String := ⟨pyTitleAux false s.toList⟩

/-- Python slicing `s[:n]` (by characters). -/
def pySlice (s : String) (n : Nat) : String := ⟨s.toList.take n⟩

/-- `sub` is a prefix of some suffix of the character list. -/
def containsAux (sub : List Char) : List Char → Bool
  | [] => sub.isPrefixOf []
  | c :: cs => sub.isPrefixOf (c :: cs) || containsAux sub cs

/-- Python `sub in s` (substring containment). -/
def pyContains (s : String) (sub : String) : Bool :=
  containsAux sub.toList s.toList

/-- Python `s.endswith(suffix)`. -/
def pyEndsWith (s : String) (suffix : String) : Bool :=
  s.toList.reverse.take suffix.toList.length = suffix.toList.reverse

/-! ## Evaluation Reporter: `post_evaluation_with_backoff` (main.py 1660-1695)

```python
for attempt in range(max_retries):
    try:
        response = requests.post(url, json=data, timeout=30)
        if response.status_code in [200, 201]:
            return True
    except requests.RequestException as e:
        ...
    if attempt < max_retries - 1:
        wait_time = min(2 ** attempt, 16)
        time.sleep(wait_time)
return False
```

The network is embedded as `respond : Nat → PostOutcome` giving, for each
0-indexed attempt, either the HTTP status of the POST or a network exception.
The embedding returns the boolean result together with the number of POST
calls made and the list of sleep durations (seconds), in order. -/

/-- Outcome of one POST attempt: a status code, or a `requests.RequestException`. -/
inductive PostOutcome where
  | status (code : Nat)
  | netExc (msg : String)
deriving DecidableEq, Repr

/-- `response.status_code in [200, 201]`; an exception is not a success. -/
def attemptSucceeds : PostOutcome → Bool
  | .status c => c = 200 || c = 201
  | .netExc _ => false

/-- The retry loop of `post_evaluation_with_backoff`, recursing on the number
of remaining attempts.  Returns `(result, number of POST calls, sleeps)`. -/
def postLoop (respond : Nat → PostOutcome) : Nat → Nat → Bool × Nat × List Nat
  | _, 0 => (false, 0, [])
  | attempt, remaining + 1 =>
      if attemptSucceeds (respond attempt) then
        (true, 1, [])
      else if remaining = 0 then
        (false, 1, [])
      else
        let rest := postLoop respond (attempt + 1) remaining
        (rest.1, rest.2.1 + 1, min (2 ^ attempt) 16 :: rest.2.2)

/-- `post_evaluation_with_backoff(url, data, max_retries)`: the `url` and
`data` do not influence control flow beyond the responses, which are supplied
by `respond`. -/
def post_evaluation_with_backoff (respond : Nat → PostOutcome)
    (max_retries : Nat := 5) : Bool × Nat × List Nat :=
  postLoop respond 0 max_retries

/-! Behaviour lemmas for the retry loop. -/

/-- One unfolding step of the loop. -/
lemma postLoop_succ (respond : Nat → PostOutcome) (attempt r : Nat) :
    postLoop respond attempt (r + 1) =
      if attemptSucceeds (respond attempt) then (true, 1, [])
      else if r = 0 then (false, 1, [])
      else
        let rest := postLoop respond (attempt + 1) r
        (rest.1, rest.2.1 + 1, min (2 ^ attempt) 16 :: rest.2.2) := rfl

/-- If every attempt in the window fails, the loop returns `false`, makes one
call per attempt, and sleeps `min (2^i) 16` after each attempt but the last. -/
lemma postLoop_all_fail (respond : Nat → PostOutcome) :
    ∀ remaining attempt,
      (∀ j, j < remaining → attemptSucceeds (respond (attempt + j)) = false) →
      postLoop respond attempt remaining =
        (false, remaining,
          (List.range (remaining - 1)).map fun i => min (2 ^ (attempt + i)) 16) := by
  intro remaining
  induction remaining with
  | zero => intro attempt _; simp [postLoop]
  | succ r ih =>
      intro attempt hfail
      have h0 : attemptSucceeds (respond attempt) = false := by
        simpa using hfail 0 (Nat.succ_pos r)
      cases r with
      | zero => simp [postLoop_succ, h0]
      | succ r' =>
          have hrec := ih (attempt + 1) (fun j hj => by
            have := hfail (j + 1) (by omega)
            simpa [Nat.add_assoc, Nat.add_comm 1 j] using this)
          rw [postLoop_succ, h0]
          simp only [Bool.false_eq_true, if_false, Nat.succ_ne_zero, hrec,
            Prod.mk.injEq, true_and]
          rw [Nat.succ_sub_one, Nat.succ_sub_one, List.range_succ_eq_map]
          simp [Function.comp, Nat.add_assoc, Nat.add_comm 1]

/-- If the first `k` attempts fail and attempt `k` succeeds, the loop returns
`true` after `k + 1` calls, with sleeps `min (2^i) 16` for `i < k`. -/
lemma postLoop_first_success (respond : Nat → PostOutcome) :
    ∀ remaining attempt k, k < remaining →
      attemptSucceeds (respond (attempt + k)) = true →
      (∀ j, j < k → attemptSucceeds (respond (attempt + j)) = false) →
      postLoop respond attempt remaining =
        (true, k + 1, (List.range k).map fun i => min (2 ^ (attempt + i)) 16) := by
  intro remaining
  induction remaining with
  | zero => intro attempt k hk; omega
  | succ r ih =>
      intro attempt k hk hsucc hfail
      cases k with
      | zero =>
          have h0 : attemptSucceeds (respond attempt) = true := by simpa using hsucc
          simp [postLoop_succ, h0]
      | succ k' =>
          have h0 : attemptSucceeds (respond attempt) = false := by
            simpa using hfail 0 (Nat.succ_pos k')
          have hr : r ≠ 0 := by omega
          have hrec := ih (attempt + 1) k' (by omega)
            (by simpa [Nat.add_assoc, Nat.add_comm 1 k'] using hsucc)
            (fun j hj => by
              have := hfail (j + 1) (by omega)
              simpa [Nat.add_assoc, Nat.add_comm 1 j] using this)
          rw [postLoop_succ, h0]
          simp only [Bool.false_eq_true, if_false, hr, hrec,
            Prod.mk.injEq, true_and]
          rw [List.range_succ_eq_map]
          simp [Function.comp, Nat.add_assoc, Nat.add_comm 1]

/-- C1: `post_evaluation_with_backoff` with `maxAttempts = 5` returns `true`
immediately at the first attempt whose status is 200/201 (making no further
calls and not sleeping after it); each failed non-final attempt is followed by
a sleep of `min (2^attempt) 16` seconds (attempt 0-indexed); and when no
attempt succeeds it returns `false` after exactly 5 calls (no 6th call),
having slept 1, 2, 4, 8 seconds between consecutive attempts. -/
theorem evaluation_reporter_retry_policy (respond : Nat → PostOutcome) :
    (∀ k, k < 5 → attemptSucceeds (respond k) = true →
      (∀ j, j < k → attemptSucceeds (respond j) = false) →
      post_evaluation_with_backoff respond 5 =
        (true, k + 1, (List.range k).map fun i => min (2 ^ i) 16)) ∧
    ((∀ j, j < 5 → attemptSucceeds (respond j) = false) →
      post_evaluation_with_backoff respond 5 = (false, 5, [1, 2, 4, 8])) := by
  constructor
  · intro k hk hsucc hfail
    have := postLoop_first_success respond 5 0 k hk (by simpa using hsucc)
      (fun j hj => by simpa using hfail j hj)
    simpa [post_evaluation_with_backoff] using this
  · intro hfail
    have := postLoop_all_fail respond 5 0 (fun j hj => by simpa using hfail j hj)
    simpa [post_evaluation_with_backoff, List.range_succ] using this

/-- Witness for C1: the endpoint that returns 500 on the first two calls and
200 on the third yields `true` after exactly 3 calls with sleeps 1s then 2s;
the endpoint that always returns 500 yields `false` after exactly 5 calls
with sleeps 1, 2, 4, 8. -/
theorem evaluation_reporter_retry_policy_witness :
    post_evaluation_with_backoff
        (fun i => if i < 2 then .status 500 else .status 200) 5 =
      (true, 3, [1, 2]) ∧
    post_evaluation_with_backoff (fun _ => .status 500) 5 =
      (false, 5, [1, 2, 4, 8]) := by
  constructor
  · have h := (evaluation_reporter_retry_policy
      (fun i => if i < 2 then .status 500 else .status 200)).1 2
      (by decide) (by decide) (by decide)
    simpa using h
  · exact (evaluation_reporter_retry_policy (fun _ => .status 500)).2
      (by intro j _; decide)

end TdsProject

namespace TdsProject

/-! ## Remote Repository Client (main.py 161-247)

The GitHub REST backend is embedded as a record of the statuses and bodies it
would return for the calls the client makes; each client function returns the
list of calls it made together with its result. -/

/-- The repository data read from the GitHub API (`response.json()`); the
pipeline only reads `html_url`. -/
structure RepoInfo where
  html_url : String
deriving DecidableEq, Repr

/-- Outbound GitHub API calls, as observable effects. -/
inductive GitHubCall where
  | getRepo (name : String)
  | createRepo (name : String)
  | postPages (name : String)
  | getPages (name : String)
deriving DecidableEq, Repr

/-- Backend behaviour for `create_or_get_repo`: status and body of
`GET /repos/{owner}/{name}` and of `POST /user/repos`. -/
structure RepoBackend where
  get_status : Nat
  get_body : RepoInfo
  create_status : Nat
  create_body : RepoInfo
  create_text : String
deriving DecidableEq, Repr

/-- `create_or_get_repo(name)` (main.py 161-205):

```python
response = requests.get(check_url, headers=HEADERS, timeout=30)
if response.status_code == 200:
    return response.json()
response = requests.post(create_url, headers=HEADERS, json=repo_data, timeout=30)
if response.status_code not in [200, 201]:
    raise HTTPException(status_code=500, detail=f"Failed to create repository: ...")
return response.json()
```
The raised `HTTPException` is embedded as `PyResult.exc` carrying the detail. -/
def create_or_get_repo (backend : RepoBackend) (name : String) :
    List GitHubCall × PyResult RepoInfo :=
  if backend.get_status = 200 then
    ([.getRepo name], .ok backend.get_body)
  else if backend.create_status = 200 ∨ backend.create_status = 201 then
    ([.getRepo name, .createRepo name], .ok backend.create_body)
  else
    ([.getRepo name, .createRepo name],
      .exc ("Failed to create repository: " ++ backend.create_text))

/-- What `enable_pages` returns: the parsed JSON of the POST or follow-up GET
response (kept opaque), or the literal `{"status": "already_enabled"}`. -/
inductive PagesResult where
  | body (b : String)
  | already_enabled
deriving DecidableEq, Repr

/-- Backend behaviour for `enable_pages`: status/body of
`POST /repos/{owner}/{name}/pages` and of the follow-up GET. -/
structure PagesBackend where
  post_status : Nat
  post_body : String
  post_text : String
  get_status : Nat
  get_body : String
deriving DecidableEq, Repr

/-- `enable_pages(name)` (main.py 207-247):

```python
response = requests.post(pages_url, headers=HEADERS, json=pages_data, timeout=30)
if response.status_code not in [200, 201, 409]:  # 409 = already exists
    raise HTTPException(status_code=500, detail=f"Failed to enable GitHub Pages: ...")
if response.status_code == 409:
    response = requests.get(pages_url, headers=HEADERS, timeout=30)
return response.json() if response.status_code in [200, 201] else {"status": "already_enabled"}
``` -/
def enable_pages (backend : PagesBackend) (name : String) :
    List GitHubCall × PyResult PagesResult :=
  if ¬(backend.post_status = 200 ∨ backend.post_status = 201 ∨
        backend.post_status = 409) then
    ([.postPages name],
      .exc ("Failed to enable GitHub Pages: " ++ backend.post_text))
  else if backend.post_status = 409 then
    ([.postPages name, .getPages name],
      .ok (if backend.get_status = 200 ∨ backend.get_status = 201 then
        .body backend.get_body
      else
        .already_enabled))
  else
    ([.postPages name], .ok (.body backend.post_body))

/-- C5: repository creation and static-hosting activation are idempotent.
When the backend reports the repository exists (GET status 200),
`create_or_get_repo` returns that repository's info having made only the
existence check — no create call.  When the backend reports Pages already
configured (POST status 409), `enable_pages` succeeds without raising,
following up with a GET of the current configuration. -/
theorem repo_and_pages_idempotent :
    (∀ (b : RepoBackend) (name : String), b.get_status = 200 →
      create_or_get_repo b name = ([.getRepo name], .ok b.get_body)) ∧
    (∀ (b : PagesBackend) (name : String), b.post_status = 409 →
      (enable_pages b name).1 = [.postPages name, .getPages name] ∧
      ((enable_pages b name).2.isOk = true)) := by
  constructor
  · intro b name h
    simp [create_or_get_repo, h]
  · intro b name h
    simp [enable_pages, h, PyResult.isOk]

/-- Witness for C5 at concrete backends: a backend whose existence check
reports 200 yields the existing info with a single GET; a Pages backend
answering 409 yields a successful result. -/
theorem repo_and_pages_idempotent_witness :
    create_or_get_repo ⟨200, ⟨"https://github.com/o/r"⟩, 500, ⟨""⟩, ""⟩ "r" =
      ([.getRepo "r"], .ok ⟨"https://github.com/o/r"⟩) ∧
    ((enable_pages ⟨409, "", "", 200, "cfg"⟩ "r").1 =
        [.postPages "r", .getPages "r"] ∧
      ((enable_pages ⟨409, "", "", 200, "cfg"⟩ "r").2.isOk = true)) :=
  ⟨repo_and_pages_idempotent.1 ⟨200, ⟨"https://github.com/o/r"⟩, 500, ⟨""⟩, ""⟩ "r" rfl,
   repo_and_pages_idempotent.2 ⟨409, "", "", 200, "cfg"⟩ "r" rfl⟩

end TdsProject

namespace TdsProject

/-! ## Acceptance Endpoint: `POST /handle_task` (main.py 1810-1900)

The request body has already passed pydantic validation (`round >= 1`,
required fields present).  The endpoint's observable behaviour is its HTTP
reply plus the background work it schedules via
`background_tasks.add_task(process_task_background, ...)` — scheduled, not
awaited, so the reply never depends on the background run's outcome. -/

/-- `Attachment` pydantic model (main.py 126-134). -/
structure Attachment where
  name : String
  url : String
deriving DecidableEq, Repr

/-- `TaskRequest` pydantic model (main.py 137-155).  `checks` and
`attachments` are `Optional` with defaults, hence `Option` here. -/
structure TaskRequest where
  email : String
  secret : String
  task : String
  round : Nat
  nonce : String
  brief : String
  checks : Option (List String)
  evaluation_url : String
  attachments : Option (List Attachment)
deriving DecidableEq, Repr

/-- JSON body of the 200 acknowledgment (main.py 1875-1885). -/
structure AcceptedBody where
  status : String
  message : String
  task : String
  round : Nat
  nonce : String
  timestamp : String
deriving DecidableEq, Repr

/-- The endpoint's HTTP reply: the 200 JSON acknowledgment, or an
`HTTPException` surfaced by the framework (401), or the 500 error body. -/
inductive HandleTaskReply where
  | json (status_code : Nat) (body : AcceptedBody)
  | httpError (status_code : Nat) (detail : String)
deriving DecidableEq, Repr

/-- The endpoint's side effect: scheduling one background Orchestrator run
with the given arguments (fire-and-forget). -/
inductive ServerEffect where
  | scheduleBackground (email task : String) (round : Nat)
      (nonce evaluation_url brief : String)
      (attachments : List Attachment) (checks : List String)
deriving DecidableEq, Repr

/-- `handle_task(payload, background_tasks)` (main.py 1810-1900):

```python
if payload.secret != APP_SECRET:
    raise HTTPException(status_code=401, detail="Invalid secret")
...
attachments = payload.attachments or []
checks = payload.checks or []
background_tasks.add_task(process_task_background, email=..., task=..., ...)
return JSONResponse(status_code=200, content={"status": "accepted", ...})
```
The 401 `HTTPException` propagates (re-raised by the `except HTTPException`
arm) before any effect happens.  `time.strftime(...)` is the `now` argument. -/
def handle_task (app_secret : String) (payload : TaskRequest) (now : String) :
    HandleTaskReply × List ServerEffect :=
  if payload.secret ≠ app_secret then
    (.httpError 401 "Invalid secret", [])
  else
    let email := payload.email
    let task := payload.task
    let round_num := payload.round
    let nonce := payload.nonce
    let evaluation_url := payload.evaluation_url
    let brief := payload.brief
    let attachments := payload.attachments.getD []
    let checks := payload.checks.getD []
    (.json 200
        ⟨"accepted", "Task accepted and is being processed", task, round_num,
          nonce, now⟩,
      [.scheduleBackground email task round_num nonce evaluation_url brief
          attachments checks])

/-- C3: a request whose secret mismatches the configured shared secret gets a
401 reply and causes no side effect: no background task is scheduled (the
effect list is empty), hence no repository-service call is ever made on its
behalf (repository calls occur only inside the scheduled background run). -/
theorem handle_task_bad_secret_no_side_effects
    (app_secret : String) (payload : TaskRequest) (now : String)
    (h : payload.secret ≠ app_secret) :
    handle_task app_secret payload now = (.httpError 401 "Invalid secret", []) := by
  simp [handle_task, h]

/-- Witness for C3 at a concrete request with a wrong secret. -/
theorem handle_task_bad_secret_no_side_effects_witness :
    handle_task "s3cret"
        ⟨"a@b.c", "wrong", "t1", 1, "n1", "brief", none, "http://e", none⟩
        "2025-01-01 00:00:00 UTC" =
      (.httpError 401 "Invalid secret", []) :=
  handle_task_bad_secret_no_side_effects "s3cret"
    ⟨"a@b.c", "wrong", "t1", 1, "n1", "brief", none, "http://e", none⟩
    "2025-01-01 00:00:00 UTC" (by decide)

/-- C4: a request with the correct secret is answered 200 in the synchronous
path with a JSON body whose `status` is `"accepted"` and which echoes the
request's `task`, `round` and `nonce`; the only side effect is scheduling
(not awaiting) one background Orchestrator run.  The reply is a function of
the request alone — the scheduled run's outcome cannot surface on it. -/
theorem handle_task_accepts_and_schedules
    (app_secret : String) (payload : TaskRequest) (now : String)
    (h : payload.secret = app_secret) :
    handle_task app_secret payload now =
      (.json 200
          ⟨"accepted", "Task accepted and is being processed", payload.task,
            payload.round, payload.nonce, now⟩,
        [.scheduleBackground payload.email payload.task payload.round
            payload.nonce payload.evaluation_url payload.brief
            (payload.attachments.getD []) (payload.checks.getD [])]) := by
  simp [handle_task, h]

/-- Witness for C4 at a concrete valid request. -/
theorem handle_task_accepts_and_schedules_witness :
    handle_task "s3cret"
        ⟨"a@b.c", "s3cret", "t1", 2, "n1", "brief", none, "http://e", none⟩
        "2025-01-01 00:00:00 UTC" =
      (.json 200
          ⟨"accepted", "Task accepted and is being processed", "t1", 2, "n1",
            "2025-01-01 00:00:00 UTC"⟩,
        [.scheduleBackground "a@b.c" "t1" 2 "n1" "http://e" "brief" [] []]) :=
  handle_task_accepts_and_schedules "s3cret"
    ⟨"a@b.c", "s3cret", "t1", 2, "n1", "brief", none, "http://e", none⟩
    "2025-01-01 00:00:00 UTC" rfl

end TdsProject

namespace TdsProject

/-! ## `UniversalTaskGenerator._extract_files_from_brief` (main.py 532-571)

```python
file_patterns = [
    r'\b(\w+\.\w+)\b',
    r'(?:file|create|build|generate|make)s?\s+(?:called\s+)?["\']?(\w+\.\w+)["\']?',
    r'(\w+\.(?:txt|json|svg|css|js|html|md|py|php|xml|yaml|yml|toml|ini|conf|c|cpp|java|rs))\b'
]
for pattern in file_patterns:
    matches = re.findall(pattern, brief, re.IGNORECASE)
    for match in matches:
        if '.' in match and any(match.lower().endswith(ext) for ext in self.supported_extensions):
            files.append(match)
unique_files = [];  # dedup preserving first-seen order
return unique_files[:10]
```

Each pattern is embedded as a left-to-right non-overlapping scanner in the
style of `re.findall` (leftmost match, continue after the match; on failure
advance one position).  The scanners use a fuel argument (one unit per
scan position) for termination; `length + 1` fuel is always enough. -/

/-- `self.supported_extensions` (main.py 526-530). -/
def supported_extensions : List String :=
  [".txt", ".json", ".svg", ".css", ".js", ".html", ".md", ".py",
   ".php", ".xml", ".yaml", ".yml", ".toml", ".ini", ".conf",
   ".c", ".cpp", ".java", ".rs"]

/-- Case-insensitive literal-prefix match: strips `pat` (given lowercase)
from the front of `cs`, returning the consumed original characters and the
remainder. -/
def stripPrefixCI : List Char → List Char → Option (List Char × List Char)
  | [], cs => some ([], cs)
  | _ :: _, [] => none
  | p :: ps, c :: cs =>
      if c.toLower = p.toLower then
        match stripPrefixCI ps cs with
        | some (tk, rest) => some (c :: tk, rest)
        | none => none
      else none

/-- `\b` after a word: holds when the next character is absent or non-word. -/
def boundaryAfter : List Char → Bool
  | [] => true
  | c :: _ => ¬ isWordChar c

/-- Match `(\w+\.\w+)`: a nonempty word run, a dot, a nonempty word run
(both runs maximal, as the greedy `\w+` cannot extend past the dot).
Returns the matched characters and the remainder. -/
def matchNameDotName (cs : List Char) : Option (List Char × List Char) :=
  match cs.span isWordChar with
  | (w1, rest1) =>
      if w1.isEmpty then none
      else
        match rest1 with
        | '.' :: rest2 =>
            match rest2.span isWordChar with
            | (w2, rest3) =>
                if w2.isEmpty then none
                else some (w1 ++ '.' :: w2, rest3)
        | _ => none

/-- `re.findall` for pattern 1, `\b(\w+\.\w+)\b`: a match may start only at a
word boundary (previous character absent or non-word); the trailing `\b`
always holds after a maximal word run. -/
def findallBasic : Nat → Bool → List Char → List String
  | 0, _, _ => []
  | _, _, [] => []
  | fuel + 1, prevW, c :: cs =>
      if !prevW && isWordChar c then
        match matchNameDotName (c :: cs) with
        | some (m, rest) => String.mk m :: findallBasic fuel true rest
        | none => findallBasic fuel (isWordChar c) cs
      else findallBasic fuel (isWordChar c) cs

/-- The extension alternation of pattern 3, in the pattern's order. -/
def extAlternation : List String :=
  ["txt", "json", "svg", "css", "js", "html", "md", "py", "php", "xml",
   "yaml", "yml", "toml", "ini", "conf", "c", "cpp", "java", "rs"]

/-- Try the extension alternatives in order (case-insensitive), requiring a
word boundary after the matched alternative, as the regex engine does. -/
def matchExtAlt : List String → List Char → Option (List Char × List Char)
  | [], _ => none
  | e :: es, cs =>
      match stripPrefixCI e.toList cs with
      | some (tk, rest) =>
          if boundaryAfter rest then some (tk, rest) else matchExtAlt es cs
      | none => matchExtAlt es cs

/-- `re.findall` for pattern 3,
`(\w+\.(?:txt|json|...|rs))\b` (no boundary before the word run). -/
def findallExt : Nat → List Char → List String
  | 0, _ => []
  | _, [] => []
  | fuel + 1, c :: cs =>
      if isWordChar c then
        match (c :: cs).span isWordChar with
        | (w1, '.' :: rest2) =>
            match matchExtAlt extAlternation rest2 with
            | some (ext, rest3) =>
                String.mk (w1 ++ '.' :: ext) :: findallExt fuel rest3
            | none => findallExt fuel cs
        | _ => findallExt fuel cs
      else findallExt fuel cs

/-- The keyword alternation of pattern 2, in the pattern's order. -/
def keywordAlternation : List String :=
  ["file", "create", "build", "generate", "make"]

/-- Try the keyword alternatives in order (case-insensitive). -/
def matchKeyword : List String → List Char → Option (List Char)
  | [], _ => none
  | k :: ks, cs =>
      match stripPrefixCI k.toList cs with
      | some (_, rest) => some rest
      | none => matchKeyword ks cs

/-- `s?\s+` after the keyword: an optional `s` (the greedy option and its
backtrack agree, since `s` is never whitespace) followed by at least one
whitespace character, consumed maximally. -/
def matchSpacePart (cs : List Char) : Option (List Char) :=
  let rest1 := match cs with
    | c :: rest => if c.toLower = 's' then rest else cs
    | [] => cs
  match rest1.span isPySpace with
  | ([], _) => none
  | (_ :: _, rest2) => some rest2

/-- `(?:called\s+)?`: consumed only when `called` is followed by whitespace
(otherwise the group matches empty and the text is left for `(\w+\.\w+)`). -/
def matchCalledPart (cs : List Char) : List Char :=
  match stripPrefixCI "called".toList cs with
  | some (_, r) =>
      match r.span isPySpace with
      | ([], _) => cs
      | (_ :: _, r2) => r2
  | none => cs

/-- `["\']?`: an optional single or double quote. -/
def matchOptQuote (cs : List Char) : List Char :=
  match cs with
  | c :: rest => if c = '"' || c = '\'' then rest else cs
  | [] => cs

/-- `re.findall` for pattern 2,
`(?:file|create|build|generate|make)s?\s+(?:called\s+)?["\']?(\w+\.\w+)["\']?`;
only the capture group is collected. -/
def findallKeyword : Nat → List Char → List String
  | 0, _ => []
  | _, [] => []
  | fuel + 1, c :: cs =>
      match matchKeyword keywordAlternation (c :: cs) with
      | some rest0 =>
          match matchSpacePart rest0 with
          | some rest2 =>
              match matchNameDotName (matchOptQuote (matchCalledPart rest2)) with
              | some (g, rest5) =>
                  String.mk g :: findallKeyword fuel (matchOptQuote rest5)
              | none => findallKeyword fuel cs
          | none => findallKeyword fuel cs
      | none => findallKeyword fuel cs

/-- All raw pattern matches of the brief, in pattern order, filtered by the
`'.' in match and match.lower().endswith(ext)` test of the Python loop. -/
def rawFileMatches (brief : String) : List String :=
  let cs := brief.toList
  let fuel := cs.length + 1
  let found := findallBasic fuel false cs ++ findallKeyword fuel cs ++
    findallExt fuel cs
  found.filter fun m =>
    pyContains m "." &&
      supported_extensions.any fun ext => pyEndsWith (pyLower m) ext

/-- The dedup loop: `if file not in unique_files: unique_files.append(file)`. -/
def dedupAppend : List String → List String → List String
  | acc, [] => acc
  | acc, f :: rest =>
      if f ∈ acc then dedupAppend acc rest else dedupAppend (acc ++ [f]) rest

/-- `_extract_files_from_brief(brief)`: filtered matches, deduplicated
preserving first-seen order, capped at 10 (`unique_files[:10]`). -/
def extract_files_from_brief (brief : String) : List String :=
  (dedupAppend [] (rawFileMatches brief)).take 10

end TdsProject

namespace TdsProject

/-! ### C7: dedup, order preservation, cap at 10 -/

/-- The dedup loop leaves the accumulator as a prefix and appends a sublist
of its input. -/
lemma dedupAppend_append (l : List String) :
    ∀ acc : List String, ∃ t, dedupAppend acc l = acc ++ t ∧ t.Sublist l := by
  induction l with
  | nil => intro acc; exact ⟨[], by simp [dedupAppend]⟩
  | cons f rest ih =>
      intro acc
      by_cases hf : f ∈ acc
      · obtain ⟨t, ht, hs⟩ := ih acc
        exact ⟨t, by simp [dedupAppend, hf, ht], hs.cons f⟩
      · obtain ⟨t, ht, hs⟩ := ih (acc ++ [f])
        exact ⟨f :: t, by simp [dedupAppend, hf, ht], hs.cons₂ f⟩

/-- The dedup loop preserves `Nodup` of the accumulator and never adds a
duplicate. -/
lemma dedupAppend_nodup (l : List String) :
    ∀ acc : List String, acc.Nodup → (dedupAppend acc l).Nodup := by
  induction l with
  | nil => intro acc h; simpa [dedupAppend] using h
  | cons f rest ih =>
      intro acc h
      by_cases hf : f ∈ acc
      · simpa [dedupAppend, hf] using ih acc h
      · have : (acc ++ [f]).Nodup := by simp [List.nodup_append, h, hf]
        simpa [dedupAppend, hf] using ih (acc ++ [f]) this

/-- C7: for every brief, `_extract_files_from_brief` returns the scanned
filename matches deduplicated (no duplicates), preserving first-seen order
(the result is a sublist of the raw match sequence), and never more than 10
entries; on a brief `"a.json and a.json and b.css"` it returns
`["a.json", "b.css"]`. -/
theorem extract_files_dedup_order_cap :
    (∀ brief : String,
      (extract_files_from_brief brief).Nodup ∧
      (extract_files_from_brief brief).length ≤ 10 ∧
      (extract_files_from_brief brief).Sublist (rawFileMatches brief)) ∧
    extract_files_from_brief "a.json and a.json and b.css" =
      ["a.json", "b.css"] := by
  constructor
  · intro brief
    obtain ⟨t, ht, hs⟩ := dedupAppend_append (rawFileMatches brief) []
    have hnd : (dedupAppend [] (rawFileMatches brief)).Nodup :=
      dedupAppend_nodup (rawFileMatches brief) [] List.nodup_nil
    refine ⟨?_, ?_, ?_⟩
    · exact hnd.sublist (List.take_sublist _ _)
    · exact List.length_take_le 10 (dedupAppend [] (rawFileMatches brief))
    · have h1 : (extract_files_from_brief brief).Sublist
          (dedupAppend [] (rawFileMatches brief)) := List.take_sublist _ _
      have h2 : (dedupAppend [] (rawFileMatches brief)).Sublist
          (rawFileMatches brief) := by simpa [ht] using hs
      exact h1.trans h2
  · decide

end TdsProject

namespace TdsProject

/-! ## Content generator: `UniversalTaskGenerator` (main.py 507-1654)

The template strings below are transcribed verbatim from the Python source
(f-string brace escapes resolved); `\x7b`/`\x7d` denote literal braces and
`\x27`/`\x60` literal apostrophes/backticks of the generated HTML, CSS and
JavaScript. -/

/-- Python `str.capitalize()`: first character uppercased, rest lowercased. -/
def pyCapitalize (s : String) : String :=
  match s.toList with
  | [] => ""
  | c :: rest => ⟨c.toUpper :: rest.map Char.toLower⟩

/-- `task.replace('_', ' ').title()`, used for titles and headings. -/
def titleTask (task : String) : String := pyTitle (pyReplace task "_" " ")

/-- Lowercase hexadecimal digit, as emitted by `json.dumps`. -/
def hexDigitChar (n : Nat) : Char :=
  if n < 10 then Char.ofNat (48 + n) else Char.ofNat (87 + n)

/-- A `\uXXXX` escape of `json.dumps` (lowercase hex). -/
def jsonU (n : Nat) : List Char :=
  ['\\', 'u', hexDigitChar (n / 4096 % 16), hexDigitChar (n / 256 % 16),
   hexDigitChar (n / 16 % 16), hexDigitChar (n % 16)]

/-- Escaping of one character inside a `json.dumps` string literal
(`ensure_ascii=True`: control and non-ASCII characters escaped, astral
characters as surrogate pairs). -/
def pyJsonEscapeChar (c : Char) : List Char :=
  if c = '"' then ['\\', '"']
  else if c = '\\' then ['\\', '\\']
  else if c = '\n' then ['\\', 'n']
  else if c = '\r' then ['\\', 'r']
  else if c = '\t' then ['\\', 't']
  else if c.toNat = 8 then ['\\', 'b']
  else if c.toNat = 12 then ['\\', 'f']
  else if c.toNat < 32 || c.toNat ≥ 127 then
    if c.toNat ≤ 65535 then jsonU c.toNat
    else
      jsonU (55296 + (c.toNat - 65536) / 1024) ++
        jsonU (56320 + (c.toNat - 65536) % 1024)
  else [c]

/-- `json.dumps` of a string. -/
def pyJsonStr (s : String) : String :=
  ⟨'"' :: (s.toList.flatMap pyJsonEscapeChar) ++ ['"']⟩

/-- `json.dumps` of a list of strings (default separators: `", "`). -/
def jsonDumpsStrings (l : List String) : String :=
  "[" ++ String.intercalate ", " (l.map pyJsonStr) ++ "]"

end TdsProject

namespace TdsProject

/-- main.py 623-628: head of the base HTML template, up to the title interpolation. -/
def htmlHeadPart1 : String :=
  "<!DOCTYPE html>\n<html lang=\"en\">\n<head>\n    <meta charset=\"UTF-8\">\n    <meta name=\"viewport\" content=\"width=device-width, initial-scale=1.0\">\n    <title>"

/-- main.py 628-743: base template between the two `task.replace.title()` interpolations (CSS and layout). -/
def htmlHeadPart2 : String :=
  "</title>\n    <link href=\"https://cdn.jsdelivr.net/npm/bootstrap@5.1.3/dist/css/bootstrap.min.css\" rel=\"stylesheet\">\n    <link href=\"https://cdnjs.cloudflare.com/ajax/libs/font-awesome/6.0.0/css/all.min.css\" rel=\"stylesheet\">\n    <script src=\"https://cdn.jsdelivr.net/npm/chart.js\"></script>\n    <style>\n        body \x7b\n            background: linear-gradient(135deg, #667eea 0%, #764ba2 100%);\n            font-family: \x27Segoe UI\x27, Tahoma, Geneva, Verdana, sans-serif;\n            min-height: 100vh;\n        \x7d\n        \n        .main-container \x7b\n            background: rgba(255, 255, 255, 0.95);\n            border-radius: 15px;\n            backdrop-filter: blur(10px);\n            box-shadow: 0 20px 40px rgba(0,0,0,0.1);\n            margin-top: 20px;\n            margin-bottom: 20px;\n        \x7d\n        \n        .header-section \x7b\n            background: linear-gradient(45deg, #007bff, #0056b3);\n            color: white;\n            border-radius: 15px 15px 0 0;\n            padding: 30px;\n            text-align: center;\n        \x7d\n        \n        .content-section \x7b\n            padding: 30px;\n        \x7d\n        \n        .data-card \x7b\n            background: white;\n            border-radius: 10px;\n            padding: 20px;\n            margin-bottom: 20px;\n            box-shadow: 0 5px 15px rgba(0,0,0,0.08);\n            transition: transform 0.3s ease;\n        \x7d\n        \n        .data-card:hover \x7b\n            transform: translateY(-5px);\n        \x7d\n        \n        .metric-value \x7b\n            font-size: 2rem;\n            font-weight: bold;\n            color: #007bff;\n        \x7d\n        \n        .metric-label \x7b\n            color: #6c757d;\n            font-weight: 500;\n            margin-top: 5px;\n        \x7d\n        \n        .btn-gradient \x7b\n            background: linear-gradient(45deg, #007bff, #0056b3);\n            border: none;\n            color: white;\n            padding: 12px 30px;\n            border-radius: 25px;\n            transition: all 0.3s ease;\n        \x7d\n        \n        .btn-gradient:hover \x7b\n            transform: translateY(-2px);\n            box-shadow: 0 10px 20px rgba(0,123,255,0.3);\n        \x7d\n        \n        .loading \x7b\n            display: none;\n            text-align: center;\n            padding: 20px;\n        \x7d\n        \n        .error \x7b\n            background: #f8d7da;\n            color: #721c24;\n            padding: 15px;\n            border-radius: 8px;\n            margin: 10px 0;\n            border: 1px solid #f5c6cb;\n        \x7d\n        \n        .success \x7b\n            background: #d4edda;\n            color: #155724;\n            padding: 15px;\n            border-radius: 8px;\n            margin: 10px 0;\n            border: 1px solid #c3e6cb;\n        \x7d\n        \n        .file-manager \x7b\n            background: #f8f9fa;\n            border-radius: 10px;\n            padding: 20px;\n            margin-top: 20px;\n        \x7d\n        \n        .chart-container \x7b\n            background: white;\n            border-radius: 10px;\n            padding: 20px;\n            margin: 20px 0;\n            box-shadow: 0 5px 15px rgba(0,0,0,0.08);\n        \x7d\n    </style>\n</head>\n<body>\n    <div class=\"container\">\n        <div class=\"main-container\">\n            <div class=\"header-section\">\n                <h1><i class=\"fas fa-chart-line me-3\"></i>"

/-- main.py 743-747: base template tail after the h1 interpolation. -/
def htmlHeadPart3 : String :=
  "</h1>\n                <p class=\"lead mb-0\">Enhanced Web Application</p>\n            </div>\n            \n            <div class=\"content-section\">"

/-- main.py 750-797: SEC/ShareVolume metric cards and chart markup, appended when `is_sec_task`. -/
def secContentBlock : String :=
  "\n                <div class=\"row mb-4\">\n                    <div class=\"col-md-4\">\n                        <div class=\"data-card text-center\">\n                            <div id=\"share-entity-name\" class=\"metric-value\">Loading...</div>\n                            <div class=\"metric-label\">Entity Name</div>\n                        </div>\n                    </div>\n                    <div class=\"col-md-4\">\n                        <div class=\"data-card text-center\">\n                            <div id=\"share-max-value\" class=\"metric-value\">Loading...</div>\n                            <div class=\"metric-label\">Max Value</div>\n                            <small id=\"share-max-fy\" class=\"text-muted\">Fiscal Year: Loading...</small>\n                        </div>\n                    </div>\n                    <div class=\"col-md-4\">\n                        <div class=\"data-card text-center\">\n                            <div id=\"share-min-value\" class=\"metric-value\">Loading...</div>\n                            <div class=\"metric-label\">Min Value</div>\n                            <small id=\"share-min-fy\" class=\"text-muted\">Fiscal Year: Loading...</small>\n                        </div>\n                    </div>\n                </div>\n                \n                <div class=\"chart-container\">\n                    <canvas id=\"shareVolumeChart\" width=\"400\" height=\"200\"></canvas>\n                </div>\n                \n                <div class=\"row\">\n                    <div class=\"col-md-6\">\n                        <button class=\"btn btn-gradient w-100\" onclick=\"fetchShareVolumeData()\">\n                            <i class=\"fas fa-sync-alt me-2\"></i>Refresh Data\n                        </button>\n                    </div>\n                    <div class=\"col-md-6\">\n                        <button class=\"btn btn-outline-primary w-100\" onclick=\"exportData()\">\n                            <i class=\"fas fa-download me-2\"></i>Export Data\n                        </button>\n                    </div>\n                </div>\n                \n                <div id=\"loading\" class=\"loading\">\n                    <i class=\"fas fa-spinner fa-spin fa-2x text-primary\"></i>\n                    <p class=\"mt-2\">Fetching data from SEC API...</p>\n                </div>\n                \n                <div id=\"error-message\"></div>"

/-- main.py 800-848: file-manager markup, appended when `required_files` is non-empty. -/
def fileManagerBlock : String :=
  "\n                <div class=\"file-manager\">\n                    <h5><i class=\"fas fa-folder-open me-2\"></i>File Manager</h5>\n                    <div class=\"row mb-3\">\n                        <div class=\"col-md-8\">\n                            <h6>Quick Access Links</h6>\n                            <div id=\"file-links\" class=\"d-flex flex-wrap gap-2\">\n                                <!-- File links will be populated by JavaScript -->\n                            </div>\n                        </div>\n                    </div>\n                </div>\n                \n                <div class=\"row\">\n                    <div class=\"col-md-4\">\n                        <div class=\"card\">\n                            <div class=\"card-header\">\n                                <h5><i class=\"fas fa-files-o me-2\"></i>Required Files</h5>\n                            </div>\n                            <div class=\"card-body\">\n                                <div id=\"file-list\" class=\"list-group list-group-flush\">\n                                    <!-- Files will be populated by JavaScript -->\n                                </div>\n                                <div class=\"mt-3\">\n                                    <button class=\"btn btn-success btn-sm\" onclick=\"downloadAll()\">\n                                        <i class=\"fas fa-download me-2\"></i>Download All\n                                    </button>\n                                </div>\n                            </div>\n                        </div>\n                    </div>\n                    \n                    <div class=\"col-md-8\">\n                        <div class=\"card\">\n                            <div class=\"card-header\">\n                                <h5><i class=\"fas fa-edit me-2\"></i>File Editor</h5>\n                            </div>\n                            <div class=\"card-body\">\n                                <div id=\"file-editor\">\n                                    <div class=\"text-center text-muted py-5\">\n                                        <i class=\"fas fa-file-alt fa-3x mb-3\"></i>\n                                        <p>Select a file from the list to edit</p>\n                                    </div>\n                                </div>\n                            </div>\n                        </div>\n                    </div>\n                </div>"

/-- main.py 850-856: closes the layout and opens the script tag. -/
def scriptOpenBlock : String :=
  "\n            </div>\n        </div>\n    </div>\n\n    <script>"

/-- main.py 858-1012: SEC API JavaScript, appended when `is_sec_task`. -/
def secJsBlock : String :=
  "\n        // SEC API Integration\n        const secApiBase = \x27https://data.sec.gov/api/xbrl/companyconcept/CIK\x27;\n        const aipipeProxy = \x27https://aipipe.co/api/json\x27;\n        \n        async function fetchShareVolumeData() \x7b\n            try \x7b\n                document.getElementById(\x27loading\x27).style.display = \x27block\x27;\n                clearError();\n                \n                // Sample companies for demonstration\n                const companies = [\n                    \x7b cik: \x270000320193\x27, name: \x27Apple Inc.\x27 \x7d,\n                    \x7b cik: \x270001018724\x27, name: \x27Amazon.com Inc.\x27 \x7d,\n                    \x7b cik: \x270001652044\x27, name: \x27Alphabet Inc.\x27 \x7d\n                ];\n                \n                const randomCompany = companies[Math.floor(Math.random() * companies.length)];\n                \n                // Fetch data via AIPipe proxy to avoid CORS\n                const response = await fetch(\x60$\x7baipipeProxy\x7d?url=$\x7bencodeURIComponent(secApiBase + randomCompany.cik + \x27/us-gaap/CommonStockSharesOutstanding.json\x27)\x7d\x60);\n                \n                if (!response.ok) \x7b\n                    throw new Error(\x60HTTP error! status: $\x7bresponse.status\x7d\x60);\n                \x7d\n                \n                const data = await response.json();\n                updateShareVolumeDisplay(data, randomCompany.name);\n                updateChart(data);\n                \n            \x7d catch (error) \x7b\n                console.error(\x27Error fetching SEC data:\x27, error);\n                showError(\x27Failed to fetch data from SEC API. Using sample data.\x27);\n                \n                // Fallback to sample data\n                const sampleData = \x7b\n                    units: \x7b\n                        shares: [\x7b\n                            val: Math.floor(Math.random() * 1000000000),\n                            fy: 2023,\n                            form: \x2710-K\x27\n                        \x7d, \x7b\n                            val: Math.floor(Math.random() * 1000000000),\n                            fy: 2022,\n                            form: \x2710-K\x27\n                        \x7d]\n                    \x7d\n                \x7d;\n                updateShareVolumeDisplay(sampleData, \x27Sample Company\x27);\n                updateChart(sampleData);\n            \x7d finally \x7b\n                document.getElementById(\x27loading\x27).style.display = \x27none\x27;\n            \x7d\n        \x7d\n        \n        function updateShareVolumeDisplay(data, entityName) \x7b\n            const shares = data.units?.shares || [];\n            if (shares.length === 0) return;\n            \n            const values = shares.map(s => s.val).filter(v => v != null);\n            const maxValue = Math.max(...values);\n            const minValue = Math.min(...values);\n            \n            const maxEntry = shares.find(s => s.val === maxValue);\n            const minEntry = shares.find(s => s.val === minValue);\n            \n            document.getElementById(\x27share-entity-name\x27).textContent = entityName;\n            document.getElementById(\x27share-max-value\x27).textContent = formatNumber(maxValue);\n            document.getElementById(\x27share-max-fy\x27).textContent = \x60Fiscal Year: $\x7bmaxEntry?.fy || \x27N/A\x27\x7d\x60;\n            document.getElementById(\x27share-min-value\x27).textContent = formatNumber(minValue);\n            document.getElementById(\x27share-min-fy\x27).textContent = \x60Fiscal Year: $\x7bminEntry?.fy || \x27N/A\x27\x7d\x60;\n        \x7d\n        \n        function updateChart(data) \x7b\n            const ctx = document.getElementById(\x27shareVolumeChart\x27).getContext(\x272d\x27);\n            const shares = data.units?.shares || [];\n            \n            const chartData = shares.slice(0, 10).map(s => (\x7b\n                x: s.fy,\n                y: s.val\n            \x7d)).sort((a, b) => a.x - b.x);\n            \n            new Chart(ctx, \x7b\n                type: \x27line\x27,\n                data: \x7b\n                    datasets: [\x7b\n                        label: \x27Shares Outstanding\x27,\n                        data: chartData,\n                        borderColor: \x27#007bff\x27,\n                        backgroundColor: \x27rgba(0, 123, 255, 0.1)\x27,\n                        tension: 0.4\n                    \x7d]\n                \x7d,\n                options: \x7b\n                    responsive: true,\n                    plugins: \x7b\n                        title: \x7b\n                            display: true,\n                            text: \x27Shares Outstanding Over Time\x27\n                        \x7d\n                    \x7d,\n                    scales: \x7b\n                        x: \x7b\n                            title: \x7b\n                                display: true,\n                                text: \x27Fiscal Year\x27\n                            \x7d\n                        \x7d,\n                        y: \x7b\n                            title: \x7b\n                                display: true,\n                                text: \x27Shares Outstanding\x27\n                            \x7d\n                        \x7d\n                    \x7d\n                \x7d\n            \x7d);\n        \x7d\n        \n        function formatNumber(num) \x7b\n            if (num >= 1e9) return (num / 1e9).toFixed(1) + \x27B\x27;\n            if (num >= 1e6) return (num / 1e6).toFixed(1) + \x27M\x27;\n            if (num >= 1e3) return (num / 1e3).toFixed(1) + \x27K\x27;\n            return num.toLocaleString();\n        \x7d\n        \n        function showError(message) \x7b\n            const errorDiv = document.getElementById(\x27error-message\x27);\n            errorDiv.innerHTML = \x60<div class=\"error\">$\x7bmessage\x7d</div>\x60;\n        \x7d\n        \n        function clearError() \x7b\n            document.getElementById(\x27error-message\x27).innerHTML = \x27\x27;\n        \x7d\n        \n        function exportData() \x7b\n            // Simple CSV export functionality\n            const entityName = document.getElementById(\x27share-entity-name\x27).textContent;\n            const maxValue = document.getElementById(\x27share-max-value\x27).textContent;\n            const minValue = document.getElementById(\x27share-min-value\x27).textContent;\n            \n            const csvContent = \x60Entity,Max Value,Min Value\\n$\x7bentityName\x7d,$\x7bmaxValue\x7d,$\x7bminValue\x7d\x60;\n            const blob = new Blob([csvContent], \x7b type: \x27text/csv\x27 \x7d);\n            const url = URL.createObjectURL(blob);\n            const a = document.createElement(\x27a\x27);\n            a.href = url;\n            a.download = \x27share_volume_data.csv\x27;\n            a.click();\n            URL.revokeObjectURL(url);\n        \x7d\n        \n        // Initialize data on page load\n        document.addEventListener(\x27DOMContentLoaded\x27, fetchShareVolumeData);"

/-- main.py 1017-1020: file-manager JavaScript up to the `json.dumps(required_files)` interpolation. -/
def fileManagerJsPart1 : String :=
  "\n        \n        // File Manager Functionality\n        const requiredFiles = "

/-- main.py 1020-1353: file-manager JavaScript after the interpolation. -/
def fileManagerJsPart2 : String :=
  ";\n        \n        function initializeFileManager() \x7b\n            const fileList = document.getElementById(\x27file-list\x27);\n            const fileLinksContainer = document.getElementById(\x27file-links\x27);\n            \n            if (requiredFiles.length === 0) \x7b\n                fileList.innerHTML = \x27<div class=\"text-muted p-3\">No specific files mentioned in the brief</div>\x27;\n                fileLinksContainer.innerHTML = \x27<span class=\"text-muted\">No files to link</span>\x27;\n                return;\n            \x7d\n            \n            // Create file navigation links\n            requiredFiles.forEach((fileName, index) => \x7b\n                // Add to file list\n                const fileItem = document.createElement(\x27div\x27);\n                fileItem.className = \x27list-group-item list-group-item-action\x27;\n                fileItem.innerHTML = \x60\n                    <div class=\"d-flex justify-content-between align-items-center\">\n                        <span>\n                            <i class=\"fas fa-file me-2\"></i>\n                            $\x7bfileName\x7d\n                        </span>\n                        <div>\n                            <span class=\"badge bg-secondary me-2\">$\x7bgetFileType(fileName)\x7d</span>\n                            <a href=\"./$\x7bfileName\x7d\" target=\"_blank\" class=\"btn btn-sm btn-outline-primary\">\n                                <i class=\"fas fa-external-link-alt\"></i>\n                            </a>\n                        </div>\n                    </div>\n                \x60;\n                fileItem.onclick = (e) => \x7b\n                    if (!e.target.closest(\x27a\x27)) \x7b // Don\x27t trigger if clicking the link\n                        loadFile(fileName);\n                    \x7d\n                \x7d;\n                fileList.appendChild(fileItem);\n                \n                // Add to quick access links\n                const linkButton = document.createElement(\x27a\x27);\n                linkButton.href = \x60./$\x7bfileName\x7d\x60;\n                linkButton.target = \x27_blank\x27;\n                linkButton.className = \x60btn btn-outline-primary btn-sm\x60;\n                linkButton.innerHTML = \x60\n                    <i class=\"fas fa-file me-1\"></i>\n                    $\x7bfileName\x7d\n                    <i class=\"fas fa-external-link-alt ms-1\"></i>\n                \x60;\n                fileLinksContainer.appendChild(linkButton);\n            \x7d);\n            \n            // Add a \"Download All\" link\n            const downloadAllBtn = document.createElement(\x27button\x27);\n            downloadAllBtn.className = \x27btn btn-success btn-sm\x27;\n            downloadAllBtn.innerHTML = \x27<i class=\"fas fa-download me-1\"></i>Download All\x27;\n            downloadAllBtn.onclick = downloadAll;\n            fileLinksContainer.appendChild(downloadAllBtn);\n        \x7d\n        \n        function getFileType(fileName) \x7b\n            const extension = fileName.split(\x27.\x27).pop().toLowerCase();\n            const typeMap = \x7b\n                \x27txt\x27: \x27Text\x27,\n                \x27json\x27: \x27JSON\x27,\n                \x27svg\x27: \x27SVG\x27,\n                \x27css\x27: \x27CSS\x27,\n                \x27js\x27: \x27JavaScript\x27,\n                \x27html\x27: \x27HTML\x27,\n                \x27md\x27: \x27Markdown\x27,\n                \x27py\x27: \x27Python\x27,\n                \x27php\x27: \x27PHP\x27,\n                \x27xml\x27: \x27XML\x27\n            \x7d;\n            return typeMap[extension] || extension.toUpperCase();\n        \x7d\n        \n        function loadFile(fileName) \x7b\n            const fileEditor = document.getElementById(\x27file-editor\x27);\n            const extension = fileName.split(\x27.\x27).pop().toLowerCase();\n            \n            let content = generateFileContent(fileName);\n            \n            fileEditor.innerHTML = \x60\n                <div class=\"d-flex justify-content-between align-items-center mb-3\">\n                    <h6 class=\"mb-0\">\n                        <i class=\"fas fa-file me-2\"></i>$\x7bfileName\x7d\n                    </h6>\n                    <span class=\"badge bg-primary\">$\x7bgetFileType(fileName)\x7d</span>\n                </div>\n                <textarea class=\"form-control\" rows=\"20\" id=\"file-content\" style=\"font-family: \x27Courier New\x27, monospace;\">$\x7bcontent\x7d</textarea>\n                <div class=\"mt-3\">\n                    <button class=\"btn btn-primary\" onclick=\"saveFile(\x27$\x7bfileName\x7d\x27)\">\n                        <i class=\"fas fa-save me-2\"></i>Save\n                    </button>\n                    <button class=\"btn btn-outline-secondary ms-2\" onclick=\"downloadFile(\x27$\x7bfileName\x7d\x27)\">\n                        <i class=\"fas fa-download me-2\"></i>Download\n                    </button>\n                    <button class=\"btn btn-outline-info ms-2\" onclick=\"previewFile(\x27$\x7bfileName\x7d\x27)\">\n                        <i class=\"fas fa-eye me-2\"></i>Preview\n                    </button>\n                </div>\n                <div id=\"file-preview\" class=\"mt-3\" style=\"display: none;\"></div>\n            \x60;\n        \x7d\n        \n        function generateFileContent(fileName) \x7b\n            const extension = fileName.split(\x27.\x27).pop().toLowerCase();\n            const baseName = fileName.replace(\x60.$$\x7bextension\x7d\x60, \x27\x27);\n            const timestamp = new Date().toISOString();\n            \n            switch(extension) \x7b\n                case \x27json\x27:\n                    return JSON.stringify(\x7b\n                        \"name\": baseName,\n                        \"type\": \"generated\",\n                        \"timestamp\": timestamp,\n                        \"description\": \x60Generated content for $\x7bfileName\x7d\x60,\n                        \"data\": \x7b\n                            \"example\": \"value\"\n                        \x7d\n                    \x7d, null, 2);\n                    \n                case \x27txt\x27:\n                    return \x60This is $\x7bfileName\x7d\nGenerated by Multi-File Manager\nTimestamp: $\x7btimestamp\x7d\n\nThis file was automatically created based on the task requirements.\nYou can modify this content as needed for your specific use case.\n\nAdd your content here...\x60;\n\n                case \x27css\x27:\n                    return \x60/* Generated CSS for $\x7bfileName\x7d */\n\nbody \x7b\n    font-family: \x27Segoe UI\x27, Tahoma, Geneva, Verdana, sans-serif;\n    margin: 0;\n    padding: 20px;\n    background-color: #f8f9fa;\n\x7d\n\n.container \x7b\n    max-width: 1200px;\n    margin: 0 auto;\n    background: white;\n    padding: 20px;\n    border-radius: 8px;\n    box-shadow: 0 2px 10px rgba(0,0,0,0.1);\n\x7d\n\nh1 \x7b\n    color: #007bff;\n    text-align: center;\n    margin-bottom: 30px;\n\x7d\n\n.btn \x7b\n    background-color: #007bff;\n    color: white;\n    padding: 10px 20px;\n    border: none;\n    border-radius: 4px;\n    cursor: pointer;\n\x7d\n\n.btn:hover \x7b\n    background-color: #0056b3;\n\x7d\x60;\n\n                case \x27js\x27:\n                    return \x60// Generated JavaScript for $\x7bfileName\x7d\n\ndocument.addEventListener(\x27DOMContentLoaded\x27, function() \x7b\n    console.log(\x27Loaded $\x7bfileName\x7d\x27);\n    \n    // Initialize the application\n    init$\x7bbaseName.charAt(0).toUpperCase() + baseName.slice(1)\x7d();\n\x7d);\n\nfunction init$\x7bbaseName.charAt(0).toUpperCase() + baseName.slice(1)\x7d() \x7b\n    console.log(\x27Initializing $\x7bbaseName\x7d...\x27);\n    \n    // Add your custom logic here\n    setupEventListeners();\n    loadData();\n\x7d\n\nfunction setupEventListeners() \x7b\n    // Add event listeners for user interactions\n    const buttons = document.querySelectorAll(\x27.btn\x27);\n    buttons.forEach(button => \x7b\n        button.addEventListener(\x27click\x27, function() \x7b\n            console.log(\x27Button clicked:\x27, this.textContent);\n        \x7d);\n    \x7d);\n\x7d\n\nfunction loadData() \x7b\n    // Load any required data\n    console.log(\x27Loading data for $\x7bbaseName\x7d...\x27);\n\x7d\x60;\n\n                case \x27html\x27:\n                    return \x60<!DOCTYPE html>\n<html lang=\"en\">\n<head>\n    <meta charset=\"UTF-8\">\n    <meta name=\"viewport\" content=\"width=device-width, initial-scale=1.0\">\n    <title>$\x7bbaseName\x7d</title>\n    <link href=\"https://cdn.jsdelivr.net/npm/bootstrap@5.1.3/dist/css/bootstrap.min.css\" rel=\"stylesheet\">\n</head>\n<body>\n    <div class=\"container mt-5\">\n        <nav aria-label=\"breadcrumb\">\n            <ol class=\"breadcrumb\">\n                <li class=\"breadcrumb-item\"><a href=\"./index.html\">Home</a></li>\n                <li class=\"breadcrumb-item active\">$\x7bfileName\x7d</li>\n            </ol>\n        </nav>\n        \n        <h1>$\x7bbaseName\x7d</h1>\n        <p class=\"lead\">Generated HTML file for $\x7bfileName\x7d</p>\n        \n        <div class=\"alert alert-info\">\n            <i class=\"fas fa-info-circle me-2\"></i>\n            This file was automatically generated. You can edit its content using the file manager.\n        </div>\n        \n        <!-- Add your content here -->\n        <div class=\"row\">\n            <div class=\"col-md-6\">\n                <h3>Section 1</h3>\n                <p>Add your content here...</p>\n            </div>\n            <div class=\"col-md-6\">\n                <h3>Section 2</h3>\n                <p>Add your content here...</p>\n            </div>\n        </div>\n        \n        <div class=\"mt-4\">\n            <a href=\"./index.html\" class=\"btn btn-primary\">\n                <i class=\"fas fa-arrow-left me-2\"></i>Back to File Manager\n            </a>\n        </div>\n    </div>\n</body>\n</html>\x60;\n\n                case \x27md\x27:\n                    return \x60# $\x7bbaseName\x7d\n\nGenerated markdown file for **$\x7bfileName\x7d**\n\n## Description\n\nThis file was automatically created based on the task requirements.\n\n## Features\n\n- Feature 1\n- Feature 2\n- Feature 3\n\n## Usage\n\n\x60\x60\x60\nAdd usage instructions here\n\x60\x60\x60\n\n## Created\n\n$\x7btimestamp\x7d\x60;\n\n                default:\n                    return \x60Generated content for $\x7bfileName\x7d\nCreated: $\x7btimestamp\x7d\n\nThis file was automatically generated based on the task requirements.\nPlease modify this content according to your specific needs.\n\nFile type: $\x7bextension\x7d\nBase name: $\x7bbaseName\x7d\x60;\n            \x7d\n        \x7d\n        \n        function saveFile(fileName) \x7b\n            const content = document.getElementById(\x27file-content\x27).value;\n            console.log(\x60Saving $\x7bfileName\x7d:\x60, content);\n            \n            // Show success message\n            const alertDiv = document.createElement(\x27div\x27);\n            alertDiv.className = \x27alert alert-success alert-dismissible fade show mt-3\x27;\n            alertDiv.innerHTML = \x60\n                <i class=\"fas fa-check-circle me-2\"></i>\n                $\x7bfileName\x7d saved successfully!\n                <button type=\"button\" class=\"btn-close\" data-bs-dismiss=\"alert\"></button>\n            \x60;\n            document.getElementById(\x27file-editor\x27).appendChild(alertDiv);\n            \n            // Remove alert after 3 seconds\n            setTimeout(() => \x7b\n                if (alertDiv.parentNode) \x7b\n                    alertDiv.remove();\n                \x7d\n            \x7d, 3000);\n        \x7d\n        \n        function downloadFile(fileName) \x7b\n            const content = document.getElementById(\x27file-content\x27).value;\n            const blob = new Blob([content], \x7b type: \x27text/plain\x27 \x7d);\n            const url = URL.createObjectURL(blob);\n            const a = document.createElement(\x27a\x27);\n            a.href = url;\n            a.download = fileName;\n            a.click();\n            URL.revokeObjectURL(url);\n        \x7d\n        \n        function downloadAll() \x7b\n            requiredFiles.forEach(fileName => \x7b\n                const content = generateFileContent(fileName);\n                const blob = new Blob([content], \x7b type: \x27text/plain\x27 \x7d);\n                const url = URL.createObjectURL(blob);\n                const a = document.createElement(\x27a\x27);\n                a.href = url;\n                a.download = fileName;\n                a.click();\n                URL.revokeObjectURL(url);\n            \x7d);\n        \x7d\n        \n        document.addEventListener(\x27DOMContentLoaded\x27, initializeFileManager);"

/-- main.py 1355-1358: closing script/body/html tags. -/
def scriptCloseBlock : String :=
  "\n    </script>\n</body>\n</html>"

/-- main.py 1383: README.md template before the title interpolation. -/
def readmePart1 : String :=
  "# "

/-- main.py 1383-1385: README.md template between title and brief slice. -/
def readmePart2 : String :=
  "\n\n"

/-- main.py 1385-1406: README.md template between brief slice and timestamp. -/
def readmePart3 : String :=
  "...\n\n## Generated Files\n\nThis project was automatically generated with the following structure:\n\n- \x60index.html\x60 - Main application interface\n- \x60README.md\x60 - This documentation file  \n- \x60LICENSE\x60 - MIT License\n\n## Usage\n\nOpen \x60index.html\x60 in a web browser to access the application.\n\n## Features\n\n- Responsive Bootstrap 5 design\n- Interactive data visualization\n- File management system\n- Real-time API integration\n\nGenerated on: "

/-- main.py 1406-1407: README.md template after the timestamp. -/
def readmePart4 : String :=
  "\n"

/-- main.py 1408-1423: the fixed LICENSE text. -/
def license_text : String :=
  "MIT License\n\nPermission is hereby granted, free of charge, to any person obtaining a copy\nof this software and associated documentation files (the \"Software\"), to deal\nin the Software without restriction, including without limitation the rights\nto use, copy, modify, merge, publish, distribute, sublicense, and/or sell\ncopies of the Software, and to permit persons to whom the Software is\nfurnished to do so, subject to the following conditions:\n\nThe above copyright notice and this permission notice shall be included in all\ncopies or substantial portions of the Software.\n\nTHE SOFTWARE IS PROVIDED \"AS IS\", WITHOUT WARRANTY OF ANY KIND, EXPRESS OR\nIMPLIED, INCLUDING BUT NOT LIMITED TO THE WARRANTIES OF MERCHANTABILITY,\nFITNESS FOR A PARTICULAR PURPOSE AND NONINFRINGEMENT.\n"

/-- main.py 1442-1451: the `txt` generator of `_generate_file_content`. -/
def txtTemplate (filename task brief now : String) : String :=
  "This is " ++
    (filename) ++
    "\nGenerated for task: " ++
    (task) ++
    "\nTimestamp: " ++
    (now) ++
    "\n\nBrief: " ++
    (pySlice brief 200) ++
    "...\n\nThis file was automatically created based on the task requirements.\nYou can modify this content as needed for your specific use case.\n\nAdd your content here..."

/-- main.py 1465-1510: the `css` generator of `_generate_file_content`. -/
def cssTemplate (filename task basename now : String) : String :=
  "/* Generated CSS for " ++
    (filename) ++
    " */\n/* Task: " ++
    (task) ++
    " */\n/* Generated: " ++
    (now) ++
    " */\n\nbody \x7b\n    font-family: \x27Segoe UI\x27, Tahoma, Geneva, Verdana, sans-serif;\n    margin: 0;\n    padding: 20px;\n    background-color: #f8f9fa;\n\x7d\n\n.container \x7b\n    max-width: 1200px;\n    margin: 0 auto;\n    background: white;\n    padding: 20px;\n    border-radius: 8px;\n    box-shadow: 0 2px 10px rgba(0,0,0,0.1);\n\x7d\n\nh1 \x7b\n    color: #007bff;\n    text-align: center;\n    margin-bottom: 30px;\n\x7d\n\n." ++
    (basename) ++
    "-style \x7b\n    background: linear-gradient(135deg, #667eea 0%, #764ba2 100%);\n    color: white;\n    padding: 20px;\n    border-radius: 10px;\n\x7d\n\n.btn \x7b\n    background-color: #007bff;\n    color: white;\n    padding: 10px 20px;\n    border: none;\n    border-radius: 4px;\n    cursor: pointer;\n    transition: background-color 0.3s;\n\x7d\n\n.btn:hover \x7b\n    background-color: #0056b3;\n\x7d"

/-- main.py 1512-1560: the `html` generator of `_generate_file_content`. -/
def htmlTemplate (filename task brief basename now : String) : String :=
  "<!DOCTYPE html>\n<html lang=\"en\">\n<head>\n    <meta charset=\"UTF-8\">\n    <meta name=\"viewport\" content=\"width=device-width, initial-scale=1.0\">\n    <title>" ++
    (basename) ++
    "</title>\n    <link href=\"https://cdn.jsdelivr.net/npm/bootstrap@5.1.3/dist/css/bootstrap.min.css\" rel=\"stylesheet\">\n    <link href=\"https://cdnjs.cloudflare.com/ajax/libs/font-awesome/6.0.0/css/all.min.css\" rel=\"stylesheet\">\n</head>\n<body>\n    <div class=\"container mt-5\">\n        <nav aria-label=\"breadcrumb\">\n            <ol class=\"breadcrumb\">\n                <li class=\"breadcrumb-item\"><a href=\"./index.html\">Home</a></li>\n                <li class=\"breadcrumb-item active\">" ++
    (filename) ++
    "</li>\n            </ol>\n        </nav>\n        \n        <h1><i class=\"fas fa-file-alt me-2\"></i>" ++
    (basename) ++
    "</h1>\n        <p class=\"lead\">Generated for task: " ++
    (task) ++
    "</p>\n        \n        <div class=\"alert alert-info\">\n            <i class=\"fas fa-info-circle me-2\"></i>\n            This file was automatically generated on " ++
    (now) ++
    "\n        </div>\n        \n        <div class=\"row\">\n            <div class=\"col-md-6\">\n                <h3>Content Section</h3>\n                <p>This content is based on the brief: " ++
    (pySlice brief 100) ++
    "...</p>\n            </div>\n            <div class=\"col-md-6\">\n                <h3>Additional Features</h3>\n                <ul>\n                    <li>Responsive design</li>\n                    <li>Bootstrap integration</li>\n                    <li>Font Awesome icons</li>\n                </ul>\n            </div>\n        </div>\n        \n        <div class=\"mt-4\">\n            <a href=\"./index.html\" class=\"btn btn-primary\">\n                <i class=\"fas fa-arrow-left me-2\"></i>Back to Main\n            </a>\n        </div>\n    </div>\n</body>\n</html>"

/-- main.py 1562-1600: the `js` generator of `_generate_file_content`. -/
def jsTemplate (filename task brief basename now : String) : String :=
  "// Generated JavaScript for " ++
    (filename) ++
    "\n// Task: " ++
    (task) ++
    "\n// Generated: " ++
    (now) ++
    "\n\ndocument.addEventListener(\x27DOMContentLoaded\x27, function() \x7b\n    console.log(\x27Loaded " ++
    (filename) ++
    "\x27);\n    init" ++
    (pyCapitalize basename) ++
    "();\n\x7d);\n\nfunction init" ++
    (pyCapitalize basename) ++
    "() \x7b\n    console.log(\x27Initializing " ++
    (basename) ++
    "...\x27);\n    setupEventListeners();\n    loadData();\n\x7d\n\nfunction setupEventListeners() \x7b\n    // Event listeners for " ++
    (basename) ++
    "\n    const buttons = document.querySelectorAll(\x27.btn\x27);\n    buttons.forEach(button => \x7b\n        button.addEventListener(\x27click\x27, function() \x7b\n            console.log(\x27Button clicked:\x27, this.textContent);\n        \x7d);\n    \x7d);\n\x7d\n\nfunction loadData() \x7b\n    // Data loading logic for " ++
    (basename) ++
    "\n    console.log(\x27Loading data for " ++
    (basename) ++
    "...\x27);\n    \n    // Sample data based on task\n    const data = \x7b\n        task: \x27" ++
    (task) ++
    "\x27,\n        filename: \x27" ++
    (filename) ++
    "\x27,\n        timestamp: \x27" ++
    (now) ++
    "\x27,\n        brief: \x27" ++
    (pySlice brief 50) ++
    "...\x27\n    \x7d;\n    \n    console.log(\x27Data loaded:\x27, data);\n\x7d"

/-- main.py 1602-1635: the `md` generator of `_generate_file_content`. -/
def mdTemplate (filename task brief basename now : String) : String :=
  "# " ++
    (basename) ++
    "\n\n> Generated for task: **" ++
    (task) ++
    "**  \n> Timestamp: " ++
    (now) ++
    "\n\n## Description\n\n" ++
    (pySlice brief 200) ++
    "...\n\n## Features\n\n- Automatically generated content\n- Markdown formatting\n- Task-specific structure\n\n## Usage\n\nThis file was created as part of the " ++
    (task) ++
    " task. You can edit and customize it according to your requirements.\n\n## Structure\n\n- **File**: " ++
    (filename) ++
    "\n- **Type**: Markdown\n- **Generated**: " ++
    (now) ++
    "\n\n## Next Steps\n\n1. Review the generated content\n2. Customize as needed\n3. Integrate with your project\n\n---\n\n*Generated by Universal Task Generator*"

/-- main.py 1643-1654: the default generator for unknown file types. -/
def defaultTemplate (filename task brief basename extension now : String) : String :=
  "Generated content for " ++
    (filename) ++
    "\nTask: " ++
    (task) ++
    "\nGenerated: " ++
    (now) ++
    "\n\nBrief: " ++
    (pySlice brief 200) ++
    "...\n\nThis file was automatically generated based on the task requirements.\nPlease modify this content according to your specific needs.\n\nFile type: " ++
    (extension) ++
    "\nBase name: " ++
    (basename) ++
    "\n"

end TdsProject

namespace TdsProject

/-- The SEC-task test of `_generate_enhanced_html` (main.py 620):
`any(term in brief.lower() for term in ['sec api', 'sec.gov', 'sharevolume', 'financial'])`. -/
def is_sec_task_check (brief : String) : Bool :=
  ["sec api", "sec.gov", "sharevolume", "financial"].any fun term =>
    pyContains (pyLower brief) term

/-- `UniversalTaskGenerator._generate_enhanced_html` (main.py 616-1360): the
base template with two title interpolations, then conditionally the SEC
content block, the file-manager block, the script opening, conditionally the
SEC JavaScript and the file-manager JavaScript (with
`json.dumps(required_files)` spliced in), and the closing tags.  The `checks`
parameter is accepted but never read by the body. -/
def generate_enhanced_html (task brief : String) (required_files : List String)
    (checks : Option (List String)) : String :=
  let is_sec_task := is_sec_task_check brief
  let t0 := htmlHeadPart1 ++ titleTask task ++ htmlHeadPart2 ++ titleTask task ++
    htmlHeadPart3
  let t1 := if is_sec_task then t0 ++ secContentBlock else t0
  let t2 := if !required_files.isEmpty then t1 ++ fileManagerBlock else t1
  let t3 := t2 ++ scriptOpenBlock
  let t4 := if is_sec_task then t3 ++ secJsBlock else t3
  let t5 := if !required_files.isEmpty then
      let required_files_js := jsonDumpsStrings required_files
      t4 ++ fileManagerJsPart1 ++ required_files_js ++ fileManagerJsPart2
    else t4
  t5 ++ scriptCloseBlock

/-- The `README.md` content of `generate_site_universal` (main.py 1383-1407). -/
def readme_md (task brief now : String) : String :=
  readmePart1 ++ titleTask task ++ readmePart2 ++ pySlice brief 200 ++
    readmePart3 ++ now ++ readmePart4

/-- `filename.split('.')[-1].lower()` (main.py 1437). -/
def fileExtension (filename : String) : String :=
  pyLower ⟨(filename.toList.reverse.takeWhile fun c => c ≠ '.').reverse⟩

/-- The `json` generator of `_generate_file_content` (main.py 1453-1463):
the exact `json.dumps({...}, indent=2)` output. -/
def jsonFileContent (filename task brief basename now : String) : String :=
  "\x7b\n  \"name\": " ++ pyJsonStr basename ++
    ",\n  \"task\": " ++ pyJsonStr task ++
    ",\n  \"timestamp\": " ++ pyJsonStr now ++
    ",\n  \"description\": " ++ pyJsonStr ("Generated JSON file for " ++ filename) ++
    ",\n  \"brief\": " ++ pyJsonStr (pySlice brief 100 ++ "...") ++
    ",\n  \"data\": \x7b\n    \"example\": \"value\",\n    \"generated\": true\n  \x7d\n\x7d"

/-- `UniversalTaskGenerator._generate_file_content` (main.py 1435-1654):
content keyed by the filename's extension; `basename` is
`filename.replace(f'.\x7bextension\x7d', '')`. -/
def generate_file_content (filename task brief now : String) : String :=
  let extension := fileExtension filename
  let basename := pyReplace filename ("." ++ extension) ""
  if extension = "txt" then txtTemplate filename task brief now
  else if extension = "json" then jsonFileContent filename task brief basename now
  else if extension = "css" then cssTemplate filename task basename now
  else if extension = "html" then htmlTemplate filename task brief basename now
  else if extension = "js" then jsTemplate filename task brief basename now
  else if extension = "md" then mdTemplate filename task brief basename now
  else defaultTemplate filename task brief basename extension now

/-- `multi_file_indicators` (main.py 583-587). -/
def multi_file_indicators : List String :=
  ["files", "create multiple", "several files", "different files",
   "also create", "and a", "along with", "additional file",
   "separate file", "another file", "include file"]

/-- `UniversalTaskGenerator._has_multiple_file_requirements` (main.py 573-588). -/
def has_multiple_file_requirements (brief : String) : Bool :=
  multi_file_indicators.any fun ind => pyContains (pyLower brief) ind

/-- `UniversalTaskGenerator._detect_task_type` (main.py 590-614). -/
def detect_task_type (task brief : String) : String :=
  let task_lower := pyLower task
  let brief_lower := pyLower brief
  if pyContains task_lower "sharevolume" || pyContains task_lower "share-volume" then
    "shareVolume"
  else if pyContains task_lower "llmpages" || pyContains task_lower "llm-pages" then
    "llmpages"
  else if ["sec api", "sec.gov", "financial", "stock"].any
      (fun term => pyContains brief_lower term) then
    "shareVolume"
  else if has_multiple_file_requirements brief ||
      (extract_files_from_brief brief).length > 0 then
    "multifile"
  else
    "general"

/-- Python dict assignment `files[filename] = v` on an insertion-ordered
association list: overwrite in place when the key exists, append otherwise. -/
def pyDictSet (fs : List (String × String)) (k v : String) :
    List (String × String) :=
  if fs.any fun p => p.1 = k then
    fs.map fun p => if p.1 = k then (k, v) else p
  else fs ++ [(k, v)]

/-- `UniversalTaskGenerator.generate_site_universal` (main.py 1362-1433):
detects the task type, extracts referenced filenames, generates the main
HTML and the README/LICENSE, then adds content for each extracted filename
(`required_files[:10]`).  The result is the insertion-ordered `files` dict
as an association list path ↦ content. -/
def generate_site_universal (task brief : String) (round_num : Nat)
    (attachments : List Attachment) (checks : Option (List String))
    (now : String) : List (String × String) :=
  let _task_type := detect_task_type task brief
  let required_files := extract_files_from_brief brief
  let html_content := generate_enhanced_html task brief required_files checks
  let files := [("index.html", html_content),
                ("README.md", readme_md task brief now),
                ("LICENSE", license_text)]
  if !required_files.isEmpty then
    (required_files.take 10).foldl
      (fun fs filename =>
        pyDictSet fs filename (generate_file_content filename task brief now))
      files
  else files

end TdsProject

namespace TdsProject

/-! ### C8, C9, C10: properties of `generate_site_universal` -/

/-- Dict assignment leaves every existing key present. -/
lemma pyDictSet_key_mem (fs : List (String × String)) (k v k' : String)
    (h : k' ∈ fs.map Prod.fst) : k' ∈ (pyDictSet fs k v).map Prod.fst := by
  unfold pyDictSet
  cases hany : fs.any fun p => p.1 = k with
  | true =>
      simp only [hany, if_true, List.map_map]
      have hfst : ∀ p : String × String,
          (Prod.fst ∘ fun p => if p.1 = k then (k, v) else p) p = p.1 := by
        intro p
        by_cases hp : p.1 = k <;> simp [hp]
      rw [List.map_congr_left fun p _ => hfst p]
      simpa using h
  | false =>
      simp only [hany, Bool.false_eq_true, if_false, List.map_append]
      exact List.mem_append_left _ h

/-- Dict assignment grows the dict by at most one entry. -/
lemma pyDictSet_length_le (fs : List (String × String)) (k v : String) :
    (pyDictSet fs k v).length ≤ fs.length + 1 := by
  unfold pyDictSet
  by_cases hk : fs.any fun p => p.1 = k <;> simp [hk]

/-- Folding dict assignments over a list of filenames keeps existing keys. -/
lemma foldl_pyDictSet_key_mem (g : String → String) (l : List String) :
    ∀ (fs : List (String × String)) (k' : String), k' ∈ fs.map Prod.fst →
      k' ∈ ((l.foldl (fun fs filename => pyDictSet fs filename (g filename))
        fs).map Prod.fst) := by
  induction l with
  | nil => intro fs k' h; simpa using h
  | cons f rest ih =>
      intro fs k' h
      exact ih (pyDictSet fs f (g f)) k' (pyDictSet_key_mem fs f (g f) k' h)

/-- Folding dict assignments grows the dict by at most one entry per name. -/
lemma foldl_pyDictSet_length_le (g : String → String) (l : List String) :
    ∀ fs : List (String × String),
      ((l.foldl (fun fs filename => pyDictSet fs filename (g filename))
        fs).length) ≤ fs.length + l.length := by
  induction l with
  | nil => intro fs; simp
  | cons f rest ih =>
      intro fs
      calc ((f :: rest).foldl
              (fun fs filename => pyDictSet fs filename (g filename)) fs).length
          ≤ (pyDictSet fs f (g f)).length + rest.length := ih _
        _ ≤ fs.length + 1 + rest.length :=
            Nat.add_le_add_right (pyDictSet_length_le fs f (g f)) _
        _ = fs.length + (f :: rest).length := by simp [Nat.add_assoc, Nat.add_comm 1]

/-- C9: for every task, brief, round, checks and attachments, the artifact of
`generate_site_universal` contains the keys `index.html`, `README.md` and
`LICENSE` (an `index.html` is produced unconditionally), and has at most 13
entries: the three base files plus at most the 10 filenames extracted from
the brief. -/
theorem generate_site_base_files_and_cap (task brief : String) (round_num : Nat)
    (attachments : List Attachment) (checks : Option (List String))
    (now : String) :
    "index.html" ∈ (generate_site_universal task brief round_num attachments
        checks now).map Prod.fst ∧
    "README.md" ∈ (generate_site_universal task brief round_num attachments
        checks now).map Prod.fst ∧
    "LICENSE" ∈ (generate_site_universal task brief round_num attachments
        checks now).map Prod.fst ∧
    (generate_site_universal task brief round_num attachments checks now).length
      ≤ 13 := by
  unfold generate_site_universal
  by_cases hreq : (extract_files_from_brief brief).isEmpty
  · simp [hreq]
  · simp only [hreq, Bool.not_false, if_true]
    set base := [("index.html",
        generate_enhanced_html task brief (extract_files_from_brief brief) checks),
      ("README.md", readme_md task brief now),
      ("LICENSE", license_text)] with hbase
    refine ⟨?_, ?_, ?_, ?_⟩
    · exact foldl_pyDictSet_key_mem _ _ base _ (by simp [hbase])
    · exact foldl_pyDictSet_key_mem _ _ base _ (by simp [hbase])
    · exact foldl_pyDictSet_key_mem _ _ base _ (by simp [hbase])
    · calc ((((extract_files_from_brief brief).take 10).foldl
              (fun fs filename => pyDictSet fs filename
                (generate_file_content filename task brief now)) base).length)
          ≤ base.length + ((extract_files_from_brief brief).take 10).length :=
            foldl_pyDictSet_length_le _ _ base
        _ ≤ 3 + 10 := by
            have := List.length_take_le 10 (extract_files_from_brief brief)
            simp [hbase]; omega
        _ = 13 := rfl

/-- C10: the artifact of `generate_site_universal` does not depend on the
`checks` or `attachments` arguments: for the same task, brief, round and
generation time, any two values of those arguments give the identical
mapping (same paths and same contents).  `checks` is passed on to
`_generate_enhanced_html`, whose body never reads it; `attachments` is never
read at all. -/
theorem generate_site_independent_of_checks_attachments
    (task brief : String) (round_num : Nat) (now : String)
    (attachments₁ attachments₂ : List Attachment)
    (checks₁ checks₂ : Option (List String)) :
    generate_site_universal task brief round_num attachments₁ checks₁ now =
      generate_site_universal task brief round_num attachments₂ checks₂ now := rfl

end TdsProject

namespace TdsProject

set_option maxRecDepth 10000

/-- C8 counterexample: for the request `task="sum-of-sales-1"`,
`brief="sum-of-sales"` (at the representative generation time
`2025-01-01 00:00:00`), the synthesized artifact has no `data.csv` path at
all — the universal generator only emits `index.html`, `README.md`,
`LICENSE` plus filenames extracted from the brief, and this brief mentions
none — and the generated `README.md` (whose title is the title-cased
`Sum-Of-Sales-1`) does not contain the literal substring
`"sum-of-sales-1"`. -/
theorem sum_of_sales_artifact_counterexample :
    ¬ ("data.csv" ∈ (generate_site_universal "sum-of-sales-1" "sum-of-sales" 1
        [] (some []) "2025-01-01 00:00:00").map Prod.fst) ∧
    (generate_site_universal "sum-of-sales-1" "sum-of-sales" 1 [] (some [])
        "2025-01-01 00:00:00").lookup "README.md" =
      some (readme_md "sum-of-sales-1" "sum-of-sales" "2025-01-01 00:00:00") ∧
    pyContains (readme_md "sum-of-sales-1" "sum-of-sales" "2025-01-01 00:00:00")
      "sum-of-sales-1" = false := by
  have hreq : extract_files_from_brief "sum-of-sales" = [] := by decide
  refine ⟨?_, ?_, ?_⟩
  · simp [generate_site_universal, hreq]
  · simp [generate_site_universal, hreq, List.lookup]
  · decide

/-- C8 (amended): for `task="sum-of-sales-1"` and `brief="sum-of-sales"`, the
synthesized artifact contains exactly the paths `index.html`, `README.md`,
`LICENSE` (in that insertion order) — no `data.csv` is generated; and the
`README.md` contains the title-cased task name `"Sum-Of-Sales-1"` and the
brief text `"sum-of-sales"`, but not the lowercase literal
`"sum-of-sales-1"` (shown at the representative generation time). -/
theorem sum_of_sales_artifact_amended (now : String) :
    (generate_site_universal "sum-of-sales-1" "sum-of-sales" 1 [] (some [])
        now).map Prod.fst = ["index.html", "README.md", "LICENSE"] ∧
    pyContains (readme_md "sum-of-sales-1" "sum-of-sales" "2025-01-01 00:00:00")
      "Sum-Of-Sales-1" = true ∧
    pyContains (readme_md "sum-of-sales-1" "sum-of-sales" "2025-01-01 00:00:00")
      "sum-of-sales" = true ∧
    pyContains (readme_md "sum-of-sales-1" "sum-of-sales" "2025-01-01 00:00:00")
      "sum-of-sales-1" = false := by
  have hreq : extract_files_from_brief "sum-of-sales" = [] := by decide
  refine ⟨?_, ?_, ?_, ?_⟩
  · simp [generate_site_universal, hreq]
  · decide
  · decide
  · decide

end TdsProject

namespace TdsProject

/-! ## Background Orchestrator: `process_task_background` (main.py 1697-1804)

The collaborators the orchestrator calls are supplied as an environment of
functions mirroring the call shapes of the source; every outbound call is
recorded as an `OrchEffect`.  The success-path evaluation POST goes through
`post_evaluation_with_backoff` (the retrying Reporter, effect `evalReport`);
the failure path issues one bare `requests.post` (effect `singleErrorPost`)
inside its own `try/except` that only logs. -/

/-- The commit data the orchestrator reads from a `put_file` response:
`commit_data["commit"]["sha"]`. -/
structure CommitInfo where
  sha : String
deriving DecidableEq, Repr

/-- The success `evaluation_data` dict (main.py 1767-1776). -/
structure EvalPayload where
  email : String
  task : String
  round : Nat
  nonce : String
  repo_url : String
  commit_sha : Option String
  pages_url : String
  status : String
deriving DecidableEq, Repr

/-- The failure `error_data` dict (main.py 1791-1798). -/
structure ErrorPayload where
  email : String
  task : String
  round : Nat
  nonce : String
  status : String
  error : String
deriving DecidableEq, Repr

/-- Outbound calls made by one orchestrator run, in order. -/
inductive OrchEffect where
  | createRepo (name : String)
  | generateSite (task brief : String) (round : Nat)
  | putFile (repo path message : String)
  | enablePages (name : String)
  | evalReport (url : String) (payload : EvalPayload)
  | singleErrorPost (url : String) (payload : ErrorPayload)
deriving DecidableEq, Repr

/-- The orchestrator's collaborators: each may raise (`PyResult`).
`eval_post` is the boolean outcome of `post_evaluation_with_backoff` and
`error_post` the outcome of the bare error-report POST. -/
structure OrchEnv where
  create_or_get_repo : String → PyResult RepoInfo
  generate_site_universal :
    String → String → Nat → List Attachment → List String →
      PyResult (List (String × String))
  put_file : String → String → String → String → PyResult CommitInfo
  enable_pages : String → PyResult PagesResult
  eval_post : String → EvalPayload → Bool

/-- The upload loop (main.py 1749-1758): one `put_file` per generated file,
tracking `latest_commit_sha`; an exception aborts the loop. -/
def uploadFiles (env : OrchEnv) (repo_name : String) (round_num : Nat) :
    List (String × String) → Option String →
      List OrchEffect × PyResult (Option String)
  | [], latest => ([], .ok latest)
  | (filename, content) :: rest, _latest =>
      let message := "Round " ++ toString round_num ++ ": Add " ++ filename
      match env.put_file repo_name filename content message with
      | .ok commit_data =>
          let next := uploadFiles env repo_name round_num rest
            (some commit_data.sha)
          (.putFile repo_name filename message :: next.1, next.2)
      | .exc e => ([.putFile repo_name filename message], .exc e)

/-- The `try` body of `process_task_background` (main.py 1732-1785): repo
provisioning, generation, uploads, Pages activation, then the success report
through the retrying Reporter. -/
def orchestratorBody (env : OrchEnv) (owner email task : String)
    (round_num : Nat) (nonce evaluation_url brief : String)
    (attachments : List Attachment) (checks : List String) :
    List OrchEffect × PyResult Unit :=
  let repo_name := "tds-project1-" ++ task
  match env.create_or_get_repo repo_name with
  | .exc e => ([.createRepo repo_name], .exc e)
  | .ok repo_data =>
      let repo_url := repo_data.html_url
      match env.generate_site_universal task brief round_num attachments checks with
      | .exc e =>
          ([.createRepo repo_name, .generateSite task brief round_num], .exc e)
      | .ok files =>
          let up := uploadFiles env repo_name round_num files none
          let pre := .createRepo repo_name ::
            .generateSite task brief round_num :: up.1
          match up.2 with
          | .exc e => (pre, .exc e)
          | .ok latest_commit_sha =>
              match env.enable_pages repo_name with
              | .exc e => (pre ++ [.enablePages repo_name], .exc e)
              | .ok _ =>
                  let pages_url :=
                    "https://" ++ owner ++ ".github.io/" ++ repo_name ++ "/"
                  let evaluation_data : EvalPayload :=
                    ⟨email, task, round_num, nonce, repo_url,
                      latest_commit_sha, pages_url, "success"⟩
                  let _success := env.eval_post evaluation_url evaluation_data
                  (pre ++ [.enablePages repo_name,
                    .evalReport evaluation_url evaluation_data], .ok ())

/-- `process_task_background` (main.py 1697-1804): the `try` body; on any
exception, one best-effort bare POST of the failure report (`error_post` is
that single `requests.post`, which may itself raise), whose own exception is
swallowed (the run never raises, so the result type is just the effect
trace). -/
def process_task_background (env : OrchEnv)
    (error_post : String → ErrorPayload → PyResult Unit)
    (owner email task : String)
    (round_num : Nat) (nonce evaluation_url brief : String)
    (attachments : List Attachment) (checks : List String) :
    List OrchEffect :=
  let body := orchestratorBody env owner email task round_num nonce
    evaluation_url brief attachments checks
  match body.2 with
  | .ok _ => body.1
  | .exc e =>
      let error_data : ErrorPayload := ⟨email, task, round_num, nonce, "error", e⟩
      let _ := error_post evaluation_url error_data
      body.1 ++ [.singleErrorPost evaluation_url error_data]

/-- Counts of report effects in a trace. -/
def countEvalReports (t : List OrchEffect) : Nat :=
  (t.filter fun e => match e with | .evalReport _ _ => true | _ => false).length

/-- Counts of bare error-post effects in a trace. -/
def countErrorPosts (t : List OrchEffect) : Nat :=
  (t.filter fun e => match e with | .singleErrorPost _ _ => true | _ => false).length

end TdsProject

namespace TdsProject

/-- `isOk` characterization. -/
lemma PyResult.isOk_iff {α : Type} (r : PyResult α) :
    r.isOk = true ↔ ∃ a, r = .ok a := by
  cases r <;> simp [PyResult.isOk]

/-- The upload loop emits only `putFile` effects, so it contains no report
effect of either kind. -/
lemma uploadFiles_count_reports (env : OrchEnv) (repo_name : String)
    (round_num : Nat) :
    ∀ (files : List (String × String)) (latest : Option String),
      countEvalReports (uploadFiles env repo_name round_num files latest).1 = 0 ∧
      countErrorPosts (uploadFiles env repo_name round_num files latest).1 = 0 := by
  intro files
  induction files with
  | nil => intro latest; simp [uploadFiles, countEvalReports, countErrorPosts]
  | cons f rest ih =>
      intro latest
      obtain ⟨p, c⟩ := f
      cases hp : env.put_file repo_name p c
          ("Round " ++ toString round_num ++ ": Add " ++ p) with
      | ok commit_data =>
          have := ih (some commit_data.sha)
          simpa [uploadFiles, hp, countEvalReports, countErrorPosts] using this
      | exc e =>
          simp [uploadFiles, hp, countEvalReports, countErrorPosts]

/-- When the orchestrator body raises, its trace contains no `evalReport`
(the retrying Reporter is never invoked) and no error post (that happens
only in the handler). -/
lemma orchestratorBody_exc_no_reports (env : OrchEnv) (owner email task : String)
    (round_num : Nat) (nonce evaluation_url brief : String)
    (attachments : List Attachment) (checks : List String) (e : String)
    (h : (orchestratorBody env owner email task round_num nonce evaluation_url
        brief attachments checks).2 = .exc e) :
    countEvalReports (orchestratorBody env owner email task round_num nonce
        evaluation_url brief attachments checks).1 = 0 ∧
    countErrorPosts (orchestratorBody env owner email task round_num nonce
        evaluation_url brief attachments checks).1 = 0 := by
  unfold orchestratorBody at *
  cases hc : env.create_or_get_repo ("tds-project1-" ++ task) with
  | exc e' => simp [hc, countEvalReports, countErrorPosts]
  | ok repo_data =>
      cases hg : env.generate_site_universal task brief round_num attachments
          checks with
      | exc e' => simp [hc, hg, countEvalReports, countErrorPosts]
      | ok files =>
          have hup := uploadFiles_count_reports env ("tds-project1-" ++ task)
            round_num files none
          cases hu : (uploadFiles env ("tds-project1-" ++ task) round_num
              files none).2 with
          | exc e' =>
              simp [hc, hg, hu, countEvalReports, countErrorPosts] at hup ⊢
              exact hup
          | ok latest =>
              cases hpg : env.enable_pages ("tds-project1-" ++ task) with
              | exc e' =>
                  simp [hc, hg, hu, hpg, countEvalReports, countErrorPosts]
                    at hup ⊢
                  exact hup
              | ok pr =>
                  simp [hc, hg, hu, hpg] at h

end TdsProject

namespace TdsProject

/-- C2: when any pipeline stage of the background Orchestrator raises, the
remaining stages are skipped and exactly one bare failure POST — carrying
`status="error"` and echoing email, task, round and nonce with `str(e)` —
is appended to the trace, never the 5-attempt retrying Reporter (zero
`evalReport` effects); the trace (and the fact that the run returns rather
than raising) is the same whatever the error POST's own outcome, ok or
exception — that outcome is swallowed.  When the failing stage is the very
first repository operation, the whole run is exactly that call followed by
the single error POST. -/
theorem orchestrator_failure_single_error_post (env : OrchEnv)
    (error_post : String → ErrorPayload → PyResult Unit)
    (owner email task : String) (round_num : Nat)
    (nonce evaluation_url brief : String) (attachments : List Attachment)
    (checks : List String) :
    (∀ e, (orchestratorBody env owner email task round_num nonce evaluation_url
        brief attachments checks).2 = .exc e →
      process_task_background env error_post owner email task round_num nonce
          evaluation_url brief attachments checks =
        (orchestratorBody env owner email task round_num nonce evaluation_url
          brief attachments checks).1 ++
          [.singleErrorPost evaluation_url
            ⟨email, task, round_num, nonce, "error", e⟩] ∧
      countEvalReports (process_task_background env error_post owner email task round_num
        nonce evaluation_url brief attachments checks) = 0 ∧
      countErrorPosts (process_task_background env error_post owner email task round_num
        nonce evaluation_url brief attachments checks) = 1) ∧
    (∀ e, env.create_or_get_repo ("tds-project1-" ++ task) = .exc e →
      process_task_background env error_post owner email task round_num nonce
          evaluation_url brief attachments checks =
        [.createRepo ("tds-project1-" ++ task),
         .singleErrorPost evaluation_url
           ⟨email, task, round_num, nonce, "error", e⟩]) ∧
    (∀ ep₁ ep₂ : String → ErrorPayload → PyResult Unit,
      process_task_background env ep₁ owner email task
          round_num nonce evaluation_url brief attachments checks =
        process_task_background env ep₂ owner email task
          round_num nonce evaluation_url brief attachments checks) := by
  refine ⟨?_, ?_, ?_⟩
  · intro e he
    have hcounts := orchestratorBody_exc_no_reports env owner email task
      round_num nonce evaluation_url brief attachments checks e he
    refine ⟨?_, ?_, ?_⟩
    · simp [process_task_background, he]
    · simp [process_task_background, he, countEvalReports,
        List.filter_append] at hcounts ⊢
      exact hcounts.1
    · simp [process_task_background, he, countErrorPosts,
        List.filter_append] at hcounts ⊢
      exact hcounts.2
  · intro e he
    simp [process_task_background, orchestratorBody, he]
  · intro ep₁ ep₂
    unfold process_task_background
    cases hb2 : (orchestratorBody env owner email
        task round_num nonce evaluation_url brief attachments checks).2 <;>
      simp [hb2]

end TdsProject

namespace TdsProject

/-- One unfolding step of the upload loop. -/
lemma uploadFiles_cons (env : OrchEnv) (repo_name : String) (round_num : Nat)
    (p c : String) (rest : List (String × String)) (latest : Option String) :
    uploadFiles env repo_name round_num ((p, c) :: rest) latest =
      (match env.put_file repo_name p c
          ("Round " ++ toString round_num ++ ": Add " ++ p) with
       | .ok commit_data =>
           (.putFile repo_name p ("Round " ++ toString round_num ++ ": Add " ++ p) ::
             (uploadFiles env repo_name round_num rest (some commit_data.sha)).1,
            (uploadFiles env repo_name round_num rest (some commit_data.sha)).2)
       | .exc e =>
           ([.putFile repo_name p ("Round " ++ toString round_num ++ ": Add " ++ p)],
            .exc e)) := rfl

/-- When every `put_file` succeeds, the upload loop succeeds and
`latest_commit_sha` ends up as the sha returned for the **last** file, with a
trace free of report effects. -/
lemma uploadFiles_all_ok (env : OrchEnv) (repo_name : String) (round_num : Nat) :
    ∀ files : List (String × String), files ≠ [] →
      (∀ f ∈ files, (env.put_file repo_name f.1 f.2
          ("Round " ++ toString round_num ++ ": Add " ++ f.1)).isOk = true) →
      ∀ latest : Option String,
      ∃ (effs : List OrchEffect) (last : String × String) (ci : CommitInfo),
        files.getLast? = some last ∧
        env.put_file repo_name last.1 last.2
          ("Round " ++ toString round_num ++ ": Add " ++ last.1) = .ok ci ∧
        uploadFiles env repo_name round_num files latest =
          (effs, .ok (some ci.sha)) ∧
        countEvalReports effs = 0 ∧ countErrorPosts effs = 0 := by
  intro files
  induction files with
  | nil => intro h; exact absurd rfl h
  | cons f rest ih =>
      intro _ hput latest
      obtain ⟨p, c⟩ := f
      obtain ⟨c0, hc0⟩ := (PyResult.isOk_iff _).mp (hput (p, c) (by simp))
      cases rest with
      | nil =>
          refine ⟨[.putFile repo_name p
              ("Round " ++ toString round_num ++ ": Add " ++ p)], (p, c), c0,
            by simp, hc0, ?_, by simp [countEvalReports],
            by simp [countErrorPosts]⟩
          rw [uploadFiles_cons, hc0]
          simp [uploadFiles]
      | cons g rest' =>
          have hput' : ∀ q ∈ g :: rest', (env.put_file repo_name q.1 q.2
              ("Round " ++ toString round_num ++ ": Add " ++ q.1)).isOk = true :=
            fun q hq => hput q (List.mem_cons_of_mem (p, c) hq)
          obtain ⟨effs, last, ci, hlast, hci, hup, hcnt1, hcnt2⟩ :=
            ih (by simp) hput' (some c0.sha)
          refine ⟨.putFile repo_name p
              ("Round " ++ toString round_num ++ ": Add " ++ p) :: effs,
            last, ci, ?_, hci, ?_, ?_, ?_⟩
          · simpa [List.getLast?_cons_cons] using hlast
          · rw [uploadFiles_cons, hc0]
            dsimp only
            rw [hup]
          · simpa [countEvalReports] using hcnt1
          · simpa [countErrorPosts] using hcnt2

end TdsProject

namespace TdsProject

/-- C6: a fully successful Orchestrator run produces exactly one success
`EvaluationReport` (one `evalReport` effect, no error post), delivered
through the retrying Reporter, echoing email, task, round and nonce, and
carrying the repository's `html_url`, the Pages URL
`https://{owner}.github.io/tds-project1-{task}/`, `status="success"`, and
`commit_sha` equal to the sha returned by the **last** file upload of the
upload loop. -/
theorem orchestrator_success_single_report (env : OrchEnv)
    (error_post : String → ErrorPayload → PyResult Unit)
    (owner email task : String) (round_num : Nat)
    (nonce evaluation_url brief : String) (attachments : List Attachment)
    (checks : List String) (repo_data : RepoInfo)
    (files : List (String × String)) (pagesRes : PagesResult)
    (hc : env.create_or_get_repo ("tds-project1-" ++ task) = .ok repo_data)
    (hg : env.generate_site_universal task brief round_num attachments checks =
      .ok files)
    (hne : files ≠ [])
    (hput : ∀ f ∈ files, (env.put_file ("tds-project1-" ++ task) f.1 f.2
        ("Round " ++ toString round_num ++ ": Add " ++ f.1)).isOk = true)
    (hpg : env.enable_pages ("tds-project1-" ++ task) = .ok pagesRes) :
    ∃ (uploadEffs : List OrchEffect) (last : String × String) (ci : CommitInfo),
      files.getLast? = some last ∧
      env.put_file ("tds-project1-" ++ task) last.1 last.2
        ("Round " ++ toString round_num ++ ": Add " ++ last.1) = .ok ci ∧
      process_task_background env error_post owner email task round_num nonce
          evaluation_url brief attachments checks =
        .createRepo ("tds-project1-" ++ task) ::
          .generateSite task brief round_num :: uploadEffs ++
          [.enablePages ("tds-project1-" ++ task),
           .evalReport evaluation_url
             ⟨email, task, round_num, nonce, repo_data.html_url, some ci.sha,
              "https://" ++ owner ++ ".github.io/" ++ ("tds-project1-" ++ task)
                ++ "/", "success"⟩] ∧
      countEvalReports (process_task_background env error_post owner email task
        round_num nonce evaluation_url brief attachments checks) = 1 ∧
      countErrorPosts (process_task_background env error_post owner email task
        round_num nonce evaluation_url brief attachments checks) = 0 := by
  obtain ⟨effs, last, ci, hlast, hci, hup, hcnt1, hcnt2⟩ :=
    uploadFiles_all_ok env ("tds-project1-" ++ task) round_num files hne hput
      none
  have hbody : orchestratorBody env owner email task round_num nonce
      evaluation_url brief attachments checks =
      (.createRepo ("tds-project1-" ++ task) ::
        .generateSite task brief round_num :: effs ++
        [.enablePages ("tds-project1-" ++ task),
         .evalReport evaluation_url
           ⟨email, task, round_num, nonce, repo_data.html_url, some ci.sha,
            "https://" ++ owner ++ ".github.io/" ++ ("tds-project1-" ++ task)
              ++ "/", "success"⟩], .ok ()) := by
    unfold orchestratorBody
    simp [hc, hg, hup, hpg]
  refine ⟨effs, last, ci, hlast, hci, ?_, ?_, ?_⟩
  · simp [process_task_background, hbody]
  · simp [process_task_background, hbody, countEvalReports,
      List.filter_append] at hcnt1 ⊢
    exact hcnt1
  · simp [process_task_background, hbody, countErrorPosts,
      List.filter_append] at hcnt2 ⊢
    exact hcnt2

end TdsProject

namespace TdsProject

/-- A collaborator environment whose repository-provisioning call raises. -/
def orchFailEnv : OrchEnv where
  create_or_get_repo _ := .exc "boom"
  generate_site_universal _ _ _ _ _ := .ok []
  put_file _ _ _ _ := .ok ⟨"s"⟩
  enable_pages _ := .ok .already_enabled
  eval_post _ _ := true

/-- Witness for C2: with the first repository call raising `boom` and the
error POST itself raising, the run's trace is exactly the failed call plus
one `singleErrorPost` echoing the request and `status="error"`; no retrying
`evalReport` occurs. -/
theorem orchestrator_failure_single_error_post_witness :
    process_task_background orchFailEnv (fun _ _ => .exc "net down") "o" "e"
        "t" 1 "n" "u" "b" [] [] =
      [.createRepo "tds-project1-t",
       .singleErrorPost "u" ⟨"e", "t", 1, "n", "error", "boom"⟩] ∧
    countEvalReports (process_task_background orchFailEnv
      (fun _ _ => .exc "net down") "o" "e" "t" 1 "n" "u" "b" [] []) = 0 ∧
    countErrorPosts (process_task_background orchFailEnv
      (fun _ _ => .exc "net down") "o" "e" "t" 1 "n" "u" "b" [] []) = 1 := by
  have h := orchestrator_failure_single_error_post orchFailEnv
    (fun _ _ => .exc "net down") "o" "e" "t" 1 "n" "u" "b" [] []
  exact ⟨h.2.1 "boom" rfl, (h.1 "boom" rfl).2.1, (h.1 "boom" rfl).2.2⟩

/-- A collaborator environment where every stage succeeds; `put_file`
returns a commit sha derived from the uploaded path. -/
def orchOkEnv : OrchEnv where
  create_or_get_repo _ := .ok ⟨"https://github.com/o/tds-project1-t"⟩
  generate_site_universal _ _ _ _ _ := .ok [("index.html", "x"), ("README.md", "y")]
  put_file _ path _ _ := .ok ⟨"sha-" ++ path⟩
  enable_pages _ := .ok .already_enabled
  eval_post _ _ := true

/-- Witness for C6: a fully successful run against `orchOkEnv` yields exactly
one success report whose `commit_sha` is the sha of the last uploaded file
(`README.md`). -/
theorem orchestrator_success_single_report_witness :
    ∃ (uploadEffs : List OrchEffect) (last : String × String) (ci : CommitInfo),
      ([("index.html", "x"), ("README.md", "y")] :
        List (String × String)).getLast? = some last ∧
      orchOkEnv.put_file "tds-project1-t" last.1 last.2
        ("Round " ++ toString 1 ++ ": Add " ++ last.1) = .ok ci ∧
      process_task_background orchOkEnv (fun _ _ => .ok ()) "o" "e" "t" 1 "n"
          "u" "b" [] [] =
        .createRepo "tds-project1-t" ::
          .generateSite "t" "b" 1 :: uploadEffs ++
          [.enablePages "tds-project1-t",
           .evalReport "u"
             ⟨"e", "t", 1, "n", "https://github.com/o/tds-project1-t",
              some ci.sha, "https://o.github.io/tds-project1-t/", "success"⟩] ∧
      countEvalReports (process_task_background orchOkEnv (fun _ _ => .ok ())
        "o" "e" "t" 1 "n" "u" "b" [] []) = 1 ∧
      countErrorPosts (process_task_background orchOkEnv (fun _ _ => .ok ())
        "o" "e" "t" 1 "n" "u" "b" [] []) = 0 :=
  orchestrator_success_single_report orchOkEnv (fun _ _ => .ok ()) "o" "e" "t"
    1 "n" "u" "b" [] [] ⟨"https://github.com/o/tds-project1-t"⟩
    [("index.html", "x"), ("README.md", "y")] .already_enabled rfl rfl
    (by simp) (fun f _ => rfl) rfl

end TdsProject
